import Mathlib

/-!
Verification of the Moon Phase Subsystem of the smart-led-clock firmware
(src/firmware/smart-led-clock/moon.cpp, moon.h).

Modelling conventions:
* C `float`/`double` intermediate arithmetic is idealized as exact rational
  arithmetic (`ℚ`); the structure of every computation is kept verbatim.
* `unsigned long` is a 32-bit unsigned integer on the target (AVR); values are
  carried as `ℕ` and reduced mod 2^32 exactly where the C code can overflow
  (the `unsigned - unsigned` differences that are stored into a signed `long`).
* C `%` and `/` on `int` truncate toward zero; they are modelled with
  `Int.tmod` / `Int.tdiv`.  The C cast `(int)` of a floating value truncates
  toward zero; it is modelled by `ratTrunc`.
* Hardware and transcendental inputs (LDR sensor reads, `millis()`, the
  `cos` call in the illumination formula, and the double-precision Meeus
  trigonometric series of `calculateNextNewMoonMeeus`) are oracles collected
  in a `MoonEnv` record; every theorem quantifies over all oracles.
* The global `moonData` singleton becomes explicit state passing: each
  embedded function takes the pre-state and returns the post-state.  Motor
  commands (`moonStepper.step(n)`) are logged in an output list so that
  "issues no motor movement" is expressible.
-/

-- ==========================================
-- Constants from moon.h
-- ==========================================

/-- MOON_STEPS_PER_REV in moon.h: steps per revolution of the 28BYJ-48. -/
def MOON_STEPS_PER_REV : ℤ := 2048

/-- MOON_CALIB_STEP_SIZE in moon.h: steps between LDR readings during the scan. -/
def MOON_CALIB_STEP_SIZE : ℤ := 8

/-- MOON_MIN_PEAK_VALUE in moon.h: minimum acceptable peak value for a valid calibration. -/
def MOON_MIN_PEAK_VALUE : ℤ := 300

/-- MOON_PHASES_COUNT in moon.h. -/
def MOON_PHASES_COUNT : ℕ := 8

/-- MOON_LUNAR_CYCLE_DAYS in moon.h (29.53058867), as an exact rational. -/
def MOON_LUNAR_CYCLE_DAYS : ℚ := 2953058867 / 100000000

/-- MOON_RECALIB_DAYS in moon.h. -/
def MOON_RECALIB_DAYS : ℚ := 30

-- ==========================================
-- Data structures from moon.h
-- ==========================================

/-- MoonPhaseData from moon.h: the global moon state singleton. -/
structure MoonPhaseData where
  phase : ℕ
  exactPhase : ℚ
  lunarAge : ℚ
  illumination : ℚ
  currentSteps : ℤ
  isCalibrated : Bool
  lastUpdate : ℕ
  lastCalib : ℕ
  nextNewMoonEpoch : ℕ
  lastMeeusSync : ℕ
  meeusInitialized : Bool
  deriving Repr, DecidableEq

/-- MoonCalibrationResult from moon.h. -/
structure MoonCalibrationResult where
  success : Bool
  peakStep : ℤ
  peakValue : ℤ
  finalValue : ℤ
  difference : ℤ
  duration : ℕ
  deriving Repr, DecidableEq

/-- Environment oracles: hardware inputs and the transcendental computations
the firmware consumes.  `meeus` stands for `calculateNextNewMoonMeeus`
(whose value is decided by double-precision trigonometry), `cosFrac x`
stands for `cos(2*pi*x)` used by `calculateMoonIllumination`, `scanRead i`
is the averaged `readLDR()` result at the i-th calibration sample,
`finalRead` is the `readLDR()` verification read after homing, and
`millisNow` is the `millis()` uptime counter. -/
structure MoonEnv where
  meeus : ℕ → ℕ
  cosFrac : ℚ → ℚ
  scanRead : ℕ → ℤ
  finalRead : ℤ
  millisNow : ℕ

-- ==========================================
-- 32-bit integer semantics helpers
-- ==========================================

/-- Reduction of a natural number to a 32-bit unsigned value. -/
def u32 (n : ℕ) : ℕ := n % 2 ^ 32

/-- Reinterpretation of a 32-bit unsigned value as a signed (two's complement) `long`. -/
def toSigned32 (n : ℕ) : ℤ :=
  if u32 n < 2 ^ 31 then (u32 n : ℤ) else (u32 n : ℤ) - 2 ^ 32

/-- The C expression `(long)(a - b)` where `a`, `b` are `unsigned long`:
unsigned 32-bit wraparound subtraction reinterpreted as signed. -/
def sub32s (a b : ℕ) : ℤ := toSigned32 (a + (2 ^ 32 - u32 b))

/-- Truncation toward zero of a rational, the C cast `(int)` of a floating value. -/
def ratTrunc (q : ℚ) : ℤ := if q < 0 then -⌊-q⌋ else ⌊q⌋

-- ==========================================
-- Astronomical calculations (moon.cpp lines 505-583)
-- ==========================================

/-- The `while (lunarAge < 0) lunarAge += MOON_LUNAR_CYCLE_DAYS;` loop of
`calculateLunarAge` (moon.cpp line 520). -/
def wrapNeg (x : ℚ) : ℚ :=
  if x < 0 then wrapNeg (x + MOON_LUNAR_CYCLE_DAYS) else x
termination_by (⌈-x / MOON_LUNAR_CYCLE_DAYS⌉).toNat
decreasing_by
  have hc : (0:ℚ) < MOON_LUNAR_CYCLE_DAYS := by norm_num [MOON_LUNAR_CYCLE_DAYS]
  have h1 : -(x + MOON_LUNAR_CYCLE_DAYS) / MOON_LUNAR_CYCLE_DAYS
      = -x / MOON_LUNAR_CYCLE_DAYS - 1 := by
    field_simp
    ring
  have h2 : ⌈-(x + MOON_LUNAR_CYCLE_DAYS) / MOON_LUNAR_CYCLE_DAYS⌉
      = ⌈-x / MOON_LUNAR_CYCLE_DAYS⌉ - 1 := by
    rw [h1]
    exact_mod_cast Int.ceil_sub_int (-x / MOON_LUNAR_CYCLE_DAYS) 1
  have h3 : 0 < ⌈-x / MOON_LUNAR_CYCLE_DAYS⌉ :=
    Int.ceil_pos.mpr (div_pos (by linarith) hc)
  omega

/-- The `while (lunarAge >= MOON_LUNAR_CYCLE_DAYS) lunarAge -= ...;` loop of
`calculateLunarAge` (moon.cpp line 523). -/
def wrapGe (x : ℚ) : ℚ :=
  if MOON_LUNAR_CYCLE_DAYS ≤ x then wrapGe (x - MOON_LUNAR_CYCLE_DAYS) else x
termination_by (⌊x / MOON_LUNAR_CYCLE_DAYS⌋).toNat
decreasing_by
  have hc : (0:ℚ) < MOON_LUNAR_CYCLE_DAYS := by norm_num [MOON_LUNAR_CYCLE_DAYS]
  have h1 : (x - MOON_LUNAR_CYCLE_DAYS) / MOON_LUNAR_CYCLE_DAYS
      = x / MOON_LUNAR_CYCLE_DAYS - 1 := by
    field_simp
  have h2 : ⌊(x - MOON_LUNAR_CYCLE_DAYS) / MOON_LUNAR_CYCLE_DAYS⌋
      = ⌊x / MOON_LUNAR_CYCLE_DAYS⌋ - 1 := by
    rw [h1]
    exact_mod_cast Int.floor_sub_int (x / MOON_LUNAR_CYCLE_DAYS) 1
  have h3 : 1 ≤ ⌊x / MOON_LUNAR_CYCLE_DAYS⌋ := by
    rw [Int.le_floor]
    rw [le_div_iff₀ hc]
    simpa using ‹MOON_LUNAR_CYCLE_DAYS ≤ x›
  omega

/-- calculateLunarAge (moon.cpp lines 505-528).  `secondsUntilNewMoon` is the
`long` holding the unsigned difference `nextNewMoonEpoch - currentEpoch`. -/
def calculateLunarAge (st : MoonPhaseData) (currentEpoch : ℕ) : ℚ :=
  if st.meeusInitialized = false then 0
  else
    let secondsUntilNewMoon : ℤ := sub32s st.nextNewMoonEpoch currentEpoch
    let daysUntilNewMoon : ℚ := (secondsUntilNewMoon : ℚ) / 86400
    let lunarAge := MOON_LUNAR_CYCLE_DAYS - daysUntilNewMoon
    wrapGe (wrapNeg lunarAge)

/-- calculateMoonPhase (moon.cpp lines 538-554). -/
def calculateMoonPhase (st : MoonPhaseData) (currentEpoch : ℕ) : ℕ :=
  let lunarAge := calculateLunarAge st currentEpoch
  let phaseSize := MOON_LUNAR_CYCLE_DAYS / 16
  if lunarAge < phaseSize then 0
  else if lunarAge < 3 * phaseSize then 1
  else if lunarAge < 5 * phaseSize then 2
  else if lunarAge < 7 * phaseSize then 3
  else if lunarAge < 9 * phaseSize then 4
  else if lunarAge < 11 * phaseSize then 5
  else if lunarAge < 13 * phaseSize then 6
  else if lunarAge < 15 * phaseSize then 7
  else 0

/-- calculateExactMoonPhase (moon.cpp lines 564-569). -/
def calculateExactMoonPhase (st : MoonPhaseData) (currentEpoch : ℕ) : ℚ :=
  (calculateLunarAge st currentEpoch / MOON_LUNAR_CYCLE_DAYS) * 8

/-- calculateMoonIllumination (moon.cpp lines 579-583); the `cos` call is the
`cosFrac` oracle. -/
def calculateMoonIllumination (env : MoonEnv) (st : MoonPhaseData)
    (currentEpoch : ℕ) : ℚ :=
  50 * (1 - env.cosFrac (calculateLunarAge st currentEpoch / MOON_LUNAR_CYCLE_DAYS))

-- ==========================================
-- Motor step conversion (moon.cpp lines 963-991)
-- ==========================================

/-- phaseToSteps (moon.cpp lines 963-965): `(phase * MOON_STEPS_PER_REV) / 8`. -/
def phaseToSteps (phase : ℕ) : ℤ :=
  Int.tdiv ((phase : ℤ) * MOON_STEPS_PER_REV) 8

/-- exactPhaseToSteps (moon.cpp lines 982-991). -/
def exactPhaseToSteps (exactPhase : ℚ) : ℤ :=
  let steps := ratTrunc ((exactPhase / 8) * (MOON_STEPS_PER_REV : ℚ))
  let steps2 := Int.tmod steps MOON_STEPS_PER_REV
  if steps2 < 0 then steps2 + MOON_STEPS_PER_REV else steps2

/-- The forward-only movement delta
`(MOON_STEPS_PER_REV + targetSteps - currentSteps) % MOON_STEPS_PER_REV`
computed at moon.cpp lines 429 and 480. -/
def forwardDelta (currentSteps targetSteps : ℤ) : ℤ :=
  Int.tmod (MOON_STEPS_PER_REV + targetSteps - currentSteps) MOON_STEPS_PER_REV

-- ==========================================
-- Calibration (moon.cpp lines 225-399)
-- ==========================================

/-- The peak-tracking scan loop of calibrateMoonHome (moon.cpp lines 247-267):
256 samples taken every MOON_CALIB_STEP_SIZE = 8 steps over one revolution;
returns (peakValue, peakStep). -/
def scanPair (env : MoonEnv) : ℤ × ℤ :=
  (List.range 256).foldl
    (fun acc i =>
      let ldrValue := env.scanRead i
      if acc.1 < ldrValue then (ldrValue, 8 * (i : ℤ)) else acc)
    (0, 0)

/-- Peak brightness value found by the calibration scan. -/
def scanPeakValue (env : MoonEnv) : ℤ := (scanPair env).1

/-- calibrateMoonHome (moon.cpp lines 225-372).  Returns the result record,
the post-state of `moonData`, and the list of motor step commands.  The
`duration` field (millis() - startTime in the source) is summarized by the
`millisNow` oracle; no claim depends on it. -/
def calibrateMoonHome (env : MoonEnv) (st : MoonPhaseData) :
    MoonCalibrationResult × MoonPhaseData × List ℤ :=
  let peakValue := (scanPair env).1
  let peakStep := (scanPair env).2
  let scanMoves := List.replicate 256 (MOON_CALIB_STEP_SIZE)
  if peakValue < MOON_MIN_PEAK_VALUE then
    ({ success := false
       peakStep := 0
       peakValue := peakValue
       finalValue := 0
       difference := 0
       duration := env.millisNow },
     st, scanMoves)
  else
    let stepsToMove := Int.tmod
      (MOON_STEPS_PER_REV + peakStep - Int.tmod MOON_STEPS_PER_REV MOON_CALIB_STEP_SIZE)
      MOON_STEPS_PER_REV
    let st1 := { st with
      currentSteps := 0
      isCalibrated := true
      lastCalib := env.millisNow / 1000 }
    let finalValue := env.finalRead
    let difference := |finalValue - peakValue|
    let success := if difference < 50 then true
                   else decide (MOON_MIN_PEAK_VALUE ≤ peakValue)
    ({ success := success
       peakStep := peakStep
       peakValue := peakValue
       finalValue := finalValue
       difference := difference
       duration := env.millisNow },
     st1, scanMoves ++ [stepsToMove])

/-- daysSinceLastCalibration (moon.cpp lines 1001-1008). -/
def daysSinceLastCalibration (st : MoonPhaseData) (currentEpoch : ℕ) : ℚ :=
  if st.lastCalib = 0 then 0
  else ((sub32s currentEpoch st.lastCalib : ℤ) : ℚ) / 86400

/-- checkAndRecalibrate (moon.cpp lines 374-399). -/
def checkAndRecalibrate (env : MoonEnv) (st : MoonPhaseData) (currentEpoch : ℕ) :
    Bool × MoonPhaseData × List ℤ :=
  if st.isCalibrated = false then (false, st, [])
  else if MOON_RECALIB_DAYS ≤ daysSinceLastCalibration st currentEpoch then
    let r := calibrateMoonHome env st
    if r.1.success then (true, { r.2.1 with lastCalib := currentEpoch }, r.2.2)
    else (false, r.2.1, r.2.2)
  else (false, st, [])

-- ==========================================
-- Cycle tracking (moon.cpp lines 832-853)
-- ==========================================

/-- checkAndIncrementMoonCycle (moon.cpp lines 832-853); the call to
`calculateNextNewMoonMeeus` is the `meeus` oracle. -/
def checkAndIncrementMoonCycle (env : MoonEnv) (st : MoonPhaseData)
    (currentEpoch : ℕ) : Bool × MoonPhaseData :=
  if st.meeusInitialized = false then (false, st)
  else if st.nextNewMoonEpoch ≤ currentEpoch then
    (true, { st with
      nextNewMoonEpoch := env.meeus currentEpoch
      lastMeeusSync := currentEpoch })
  else (false, st)

-- ==========================================
-- Position updates (moon.cpp lines 415-490)
-- ==========================================

/-- updateMoonPosition (moon.cpp lines 415-457).  Returns the boolean result,
the post-state, and the list of motor step commands issued. -/
def updateMoonPosition (env : MoonEnv) (st : MoonPhaseData) (currentEpoch : ℕ) :
    Bool × MoonPhaseData × List ℤ :=
  if st.isCalibrated = false then (false, st, [])
  else
    let st1 := (checkAndIncrementMoonCycle env st currentEpoch).2
    let exactPhase := calculateExactMoonPhase st1 currentEpoch
    let targetSteps := exactPhaseToSteps exactPhase
    let stepsToMove := forwardDelta st1.currentSteps targetSteps
    let moved :=
      if 5 < stepsToMove then
        ({ st1 with currentSteps := targetSteps, lastUpdate := env.millisNow },
         [stepsToMove])
      else (st1, ([] : List ℤ))
    let st2 := moved.1
    let st3 := { st2 with
      lunarAge := calculateLunarAge st2 currentEpoch
      phase := calculateMoonPhase st2 currentEpoch
      exactPhase := exactPhase
      illumination := calculateMoonIllumination env st2 currentEpoch }
    let rc := checkAndRecalibrate env st3 currentEpoch
    (true, rc.2.1, moved.2 ++ rc.2.2)

/-- moveMoonToPhase (moon.cpp lines 468-490). -/
def moveMoonToPhase (env : MoonEnv) (st : MoonPhaseData) (phase : ℕ) :
    Bool × MoonPhaseData × List ℤ :=
  if st.isCalibrated = false then (false, st, [])
  else if MOON_PHASES_COUNT ≤ phase then (false, st, [])
  else
    let targetSteps := phaseToSteps phase
    let stepsToMove := forwardDelta st.currentSteps targetSteps
    (true,
     { st with currentSteps := targetSteps, lastUpdate := env.millisNow },
     [stepsToMove])

-- ==========================================
-- Date/time conversion (moon.cpp lines 878-917)
-- ==========================================

/-- The leap-year test used at moon.cpp lines 891 and 902. -/
def isLeapYear (y : ℕ) : Bool :=
  y % 4 == 0 && (y % 100 != 0 || y % 400 == 0)

/-- Number of days in a year per the leap rule of epochToDateTime. -/
def daysInYear (y : ℕ) : ℕ := if isLeapYear y then 366 else 365

/-- The year-finding loop of epochToDateTime (moon.cpp lines 889-898). -/
def yearLoop (year days : ℕ) : ℕ × ℕ :=
  if daysInYear year ≤ days then yearLoop (year + 1) (days - daysInYear year)
  else (year, days)
termination_by days
decreasing_by
  have h365 : 365 ≤ daysInYear year := by
    unfold daysInYear; split <;> omega
  omega

/-- The daysInMonth table of epochToDateTime (moon.cpp lines 901-904). -/
def monthLengths (leap : Bool) : List ℕ :=
  [31, if leap then 29 else 28, 31, 30, 31, 30, 31, 31, 30, 31, 30, 31]

/-- The month-finding loop of epochToDateTime (moon.cpp lines 906-914). -/
def monthLoop : List ℕ → ℕ → ℕ → ℕ × ℕ
  | [], m, days => (m, days)
  | len :: rest, m, days =>
      if len ≤ days then monthLoop rest (m + 1) (days - len) else (m, days)

/-- epochToDateTime (moon.cpp lines 878-917): Unix epoch to
(year, month, day, hour, minute, second), proleptic Gregorian, UTC. -/
def epochToDateTime (epoch : ℕ) : ℕ × ℕ × ℕ × ℕ × ℕ × ℕ :=
  let second := epoch % 60
  let minute := (epoch / 60) % 60
  let hour := (epoch / 3600) % 24
  let days := epoch / 86400
  let yr := yearLoop 1970 days
  let md := monthLoop (monthLengths (isLeapYear yr.1)) 1 yr.2
  (yr.1, md.1, md.2 + 1, hour, minute, second)

-- ==========================================
-- Specification-side reference definitions
-- ==========================================

/-- Reference wrap of a value into [0, MOON_LUNAR_CYCLE_DAYS): the canonical
representative modulo the cycle length, used to state what the two
normalization loops of calculateLunarAge compute. -/
def modCycle (x : ℚ) : ℚ :=
  x - MOON_LUNAR_CYCLE_DAYS * ⌊x / MOON_LUNAR_CYCLE_DAYS⌋

/-- Reference phase bucketing, written from the specification's wording:
phase 0 is centered at age 0 and ages at or beyond the 15/16 threshold wrap
to phase 0; otherwise the phase is the nearest integer to 8*age/cycle
(so phase k covers [(2k-1)/16, (2k+1)/16) of the cycle). -/
def specBucket (age : ℚ) : ℕ :=
  if 15 * MOON_LUNAR_CYCLE_DAYS / 16 ≤ age then 0
  else (⌊age / MOON_LUNAR_CYCLE_DAYS * 8 + 1 / 2⌋).toNat

/-- Reference count of days from 1970-01-01 to January 1st of year y
(proleptic Gregorian, leap rule: divisible by 4, not by 100 unless by 400). -/
def daysBeforeYear (y : ℕ) : ℕ :=
  if y ≤ 1970 then 0 else daysBeforeYear (y - 1) + daysInYear (y - 1)
termination_by y
decreasing_by omega

/-- Reference encoder from proleptic-Gregorian UTC components back to a Unix
epoch; the unique left inverse on in-range components of any correct
epoch-to-date conversion. -/
def dateTimeToEpoch (y m d h mi s : ℕ) : ℕ :=
  s + 60 * (mi + 60 * (h + 24 * (daysBeforeYear y
    + ((monthLengths (isLeapYear y)).take (m - 1)).sum + (d - 1))))

-- ==========================================
-- Concrete evaluation points for witnesses
-- ==========================================

/-- All-zero moon state (the value moonData is initialized to), used as a
concrete evaluation point. -/
def stZero : MoonPhaseData where
  phase := 0
  exactPhase := 0
  lunarAge := 0
  illumination := 0
  currentSteps := 0
  isCalibrated := false
  lastUpdate := 0
  lastCalib := 0
  nextNewMoonEpoch := 0
  lastMeeusSync := 0
  meeusInitialized := false

/-- Concrete state with the Meeus reference initialized and a given
next-new-moon epoch. -/
def stMeeus (next : ℕ) : MoonPhaseData :=
  { stZero with meeusInitialized := true, nextNewMoonEpoch := next }

/-- Trivial oracle environment used as a concrete evaluation point. -/
def envW : MoonEnv where
  meeus := fun _ => 0
  cosFrac := fun _ => 0
  scanRead := fun _ => 0
  finalRead := 0
  millisNow := 0

-- ==========================================
-- Meeus ephemeris (moon.cpp lines 617-815), over exact reals
-- ==========================================

/-- The C `fmod(x, y)`: `x - y * trunc(x / y)`. -/
def qfmod (x y : ℚ) : ℚ := x - y * (ratTrunc (x / y) : ℚ)

/-- Sine of an angle given in degrees (the source computes the degree value,
reduces it with fmod, multiplies by PI/180 and calls sin); the double
computation is idealized to the exact real sine. -/
noncomputable def sinDeg (d : ℚ) : ℝ := Real.sin ((d : ℝ) * Real.pi / 180)

/-- Lunation number k of calculateMeeusNewMoon (moon.cpp lines 673-675). -/
def meeusK (year month : ℤ) : ℤ :=
  ⌊((year : ℚ) + ((month : ℚ) - 0.5) / 12 - 2000) * 12.3685⌋

/-- Julian centuries T since J2000.0 (moon.cpp line 678). -/
def meeusT (k : ℤ) : ℚ := (k : ℚ) / 1236.85

/-- Mean new moon JDE (moon.cpp lines 684-687). -/
def meeusJDE (k : ℤ) : ℚ :=
  2451550.09766 + 29.530588861 * (k : ℚ)
    + 0.00015437 * (meeusT k) ^ 2
    - 0.000000150 * (meeusT k) ^ 3
    + 0.00000000073 * (meeusT k) ^ 4

/-- Sun's mean anomaly M in degrees, reduced mod 360 (moon.cpp lines 690-693). -/
def meeusM (k : ℤ) : ℚ :=
  qfmod (2.5534 + 29.10535670 * (k : ℚ)
    - 0.0000014 * (meeusT k) ^ 2
    - 0.00000011 * (meeusT k) ^ 3) 360

/-- Moon's mean anomaly M' in degrees, reduced mod 360 (moon.cpp lines 696-700). -/
def meeusMprime (k : ℤ) : ℚ :=
  qfmod (201.5643 + 385.81693528 * (k : ℚ)
    + 0.0107582 * (meeusT k) ^ 2
    + 0.00001238 * (meeusT k) ^ 3
    - 0.000000058 * (meeusT k) ^ 4) 360

/-- Moon's argument of latitude F in degrees, reduced mod 360 (moon.cpp lines 703-707). -/
def meeusF (k : ℤ) : ℚ :=
  qfmod (160.7108 + 390.67050284 * (k : ℚ)
    - 0.0016118 * (meeusT k) ^ 2
    - 0.00000227 * (meeusT k) ^ 3
    + 0.000000011 * (meeusT k) ^ 4) 360

/-- Longitude of the ascending node in degrees, reduced mod 360
(moon.cpp lines 710-713). -/
def meeusOmega (k : ℤ) : ℚ :=
  qfmod (124.7746 - 1.56375588 * (k : ℚ)
    + 0.0020672 * (meeusT k) ^ 2
    + 0.00000215 * (meeusT k) ^ 3) 360

/-- Earth's eccentricity factor E (moon.cpp line 722). -/
def meeusE (k : ℤ) : ℚ :=
  1 - 0.002516 * meeusT k - 0.0000074 * (meeusT k) ^ 2

/-- The sum of periodic correction terms of calculateMeeusNewMoon
(moon.cpp lines 725-809): the 25 main terms followed by the 14 planetary
perturbation terms A1..A14.  Sine arguments are kept in degrees
(sin of a sum/multiple of radian angles equals sinDeg of the corresponding
degree combination). -/
noncomputable def meeusCorrection (k : ℤ) : ℝ :=
  let M := meeusM k
  let Mp := meeusMprime k
  let F := meeusF k
  let Om := meeusOmega k
  let E : ℝ := ((meeusE k : ℚ) : ℝ);
  -0.40720 * sinDeg Mp
  + 0.17241 * E * sinDeg M
  + 0.01608 * sinDeg (2 * Mp)
  + 0.01039 * sinDeg (2 * F)
  + 0.00739 * E * sinDeg (Mp - M)
  - 0.00514 * E * sinDeg (Mp + M)
  + 0.00208 * E * E * sinDeg (2 * M)
  - 0.00111 * sinDeg (Mp - 2 * F)
  - 0.00057 * sinDeg (Mp + 2 * F)
  + 0.00056 * E * sinDeg (2 * Mp + M)
  - 0.00042 * sinDeg (3 * Mp)
  + 0.00042 * E * sinDeg (M + 2 * F)
  + 0.00038 * E * sinDeg (M - 2 * F)
  - 0.00024 * E * sinDeg (2 * Mp - M)
  - 0.00017 * sinDeg Om
  - 0.00007 * sinDeg (Mp + 2 * M)
  + 0.00004 * sinDeg (2 * Mp - 2 * F)
  + 0.00004 * sinDeg (3 * M)
  + 0.00003 * sinDeg (Mp + M - 2 * F)
  + 0.00003 * sinDeg (2 * Mp + 2 * F)
  - 0.00003 * sinDeg (Mp + M + 2 * F)
  + 0.00003 * sinDeg (Mp - M + 2 * F)
  - 0.00002 * sinDeg (Mp - M - 2 * F)
  - 0.00002 * sinDeg (3 * Mp + M)
  + 0.00002 * sinDeg (4 * Mp)
  + 0.000325 * sinDeg (qfmod (299.77 + 0.107408 * (k : ℚ) - 0.009173 * (meeusT k) ^ 2) 360)
  + 0.000165 * sinDeg (qfmod (251.88 + 0.016321 * (k : ℚ)) 360)
  + 0.000164 * sinDeg (qfmod (251.83 + 26.651886 * (k : ℚ)) 360)
  + 0.000126 * sinDeg (qfmod (349.42 + 36.412478 * (k : ℚ)) 360)
  + 0.000110 * sinDeg (qfmod (84.66 + 18.206239 * (k : ℚ)) 360)
  + 0.000062 * sinDeg (qfmod (141.74 + 53.303771 * (k : ℚ)) 360)
  + 0.000060 * sinDeg (qfmod (207.14 + 2.453732 * (k : ℚ)) 360)
  + 0.000056 * sinDeg (qfmod (154.84 + 7.306860 * (k : ℚ)) 360)
  + 0.000047 * sinDeg (qfmod (34.52 + 27.261239 * (k : ℚ)) 360)
  + 0.000042 * sinDeg (qfmod (207.19 + 0.121824 * (k : ℚ)) 360)
  + 0.000040 * sinDeg (qfmod (291.34 + 1.844379 * (k : ℚ)) 360)
  + 0.000037 * sinDeg (qfmod (161.72 + 24.198154 * (k : ℚ)) 360)
  + 0.000035 * sinDeg (qfmod (239.56 + 25.513099 * (k : ℚ)) 360)
  + 0.000023 * sinDeg (qfmod (331.55 + 3.592518 * (k : ℚ)) 360)

/-- calculateMeeusNewMoon (moon.cpp lines 672-815): Julian Date of the new
moon of lunation meeusK year month, with double arithmetic idealized to
exact reals. -/
noncomputable def calculateMeeusNewMoon (year month : ℤ) : ℝ :=
  ((meeusJDE (meeusK year month) : ℚ) : ℝ) + meeusCorrection (meeusK year month)

/-- calculateNextNewMoonMeeus (moon.cpp lines 617-648).  The cast
`(unsigned long)((jd - JULIAN_EPOCH_OFFSET) * SECONDS_PER_DAY)` truncates the
positive double value, modelled by the integer floor.  If the current
month's new moon is at or before currentEpoch the routine advances exactly
one month and returns that month's value without rechecking. -/
noncomputable def calculateNextNewMoonMeeus (currentEpoch : ℕ) : ℤ :=
  let d := epochToDateTime currentEpoch
  let year : ℤ := (d.1 : ℤ)
  let month : ℤ := (d.2.1 : ℤ)
  let jd := calculateMeeusNewMoon year month
  let newMoonEpoch : ℤ := ⌊(jd - 2440587.5) * 86400⌋
  if newMoonEpoch ≤ (currentEpoch : ℤ) then
    let month2 := month + 1
    let year2 := if month2 > 12 then year + 1 else year
    let month3 := if month2 > 12 then 1 else month2
    ⌊(calculateMeeusNewMoon year2 month3 - 2440587.5) * 86400⌋
  else newMoonEpoch

-- ==========================================
-- Basic numeric lemmas
-- ==========================================

lemma cycle_pos : (0:ℚ) < MOON_LUNAR_CYCLE_DAYS := by
  norm_num [MOON_LUNAR_CYCLE_DAYS]

lemma tmod_rev_bounds (a : ℤ) :
    -MOON_STEPS_PER_REV < Int.tmod a MOON_STEPS_PER_REV ∧
    Int.tmod a MOON_STEPS_PER_REV < MOON_STEPS_PER_REV := by
  show -2048 < Int.tmod a 2048 ∧ Int.tmod a 2048 < 2048
  cases a with
  | ofNat m =>
      have h : Int.tmod (Int.ofNat m) 2048 = Int.ofNat (m % 2048) := rfl
      rw [h]
      simp only [Int.ofNat_eq_natCast]
      have := Nat.mod_lt m (show 0 < 2048 by norm_num)
      omega
  | negSucc m =>
      have h : Int.tmod (Int.negSucc m) 2048 = -Int.ofNat ((m + 1) % 2048) := rfl
      rw [h]
      simp only [Int.ofNat_eq_natCast]
      have := Nat.mod_lt (m + 1) (show 0 < 2048 by norm_num)
      omega

lemma tmod_rev_nonneg {a : ℤ} (ha : 0 ≤ a) :
    0 ≤ Int.tmod a MOON_STEPS_PER_REV := by
  show 0 ≤ Int.tmod a 2048
  rw [Int.tmod_eq_emod ha (by norm_num)]
  exact Int.emod_nonneg a (by norm_num)

lemma exactPhaseToSteps_mem (q : ℚ) :
    0 ≤ exactPhaseToSteps q ∧ exactPhaseToSteps q < MOON_STEPS_PER_REV := by
  unfold exactPhaseToSteps
  obtain ⟨hl, hr⟩ := tmod_rev_bounds (ratTrunc (q / 8 * (MOON_STEPS_PER_REV : ℚ)))
  by_cases hneg :
      Int.tmod (ratTrunc (q / 8 * (MOON_STEPS_PER_REV : ℚ))) MOON_STEPS_PER_REV < 0
  · simp only [hneg, if_pos]
    constructor <;> linarith
  · simp only [hneg, if_neg, not_false_eq_true]
    exact ⟨not_lt.mp hneg, hr⟩

lemma forwardDelta_mem (c t : ℤ) (h0 : 0 ≤ c) (h1 : c < MOON_STEPS_PER_REV)
    (h2 : 0 ≤ t) (h3 : t < MOON_STEPS_PER_REV) :
    0 ≤ forwardDelta c t ∧ forwardDelta c t < MOON_STEPS_PER_REV := by
  unfold forwardDelta
  have harg : 0 ≤ MOON_STEPS_PER_REV + t - c := by
    have hm : MOON_STEPS_PER_REV = (2048:ℤ) := rfl
    rw [hm] at h1 ⊢
    omega
  exact ⟨tmod_rev_nonneg harg, (tmod_rev_bounds _).2⟩

lemma phaseToSteps_mem {p : ℕ} (hp : p < MOON_PHASES_COUNT) :
    0 ≤ phaseToSteps p ∧ phaseToSteps p < MOON_STEPS_PER_REV := by
  have h8 : p < 8 := hp
  interval_cases p <;> decide

-- ==========================================
-- C5, C7, C8, C10
-- ==========================================

/-- C5: whenever moonData.isCalibrated is false, updateMoonPosition and
moveMoonToPhase return false immediately, leave every field of the state
unchanged, and issue no motor movement. -/
theorem uncalibrated_guard (env : MoonEnv) (st : MoonPhaseData) (e p : ℕ)
    (h : st.isCalibrated = false) :
    updateMoonPosition env st e = (false, st, []) ∧
    moveMoonToPhase env st p = (false, st, []) := by
  constructor
  · unfold updateMoonPosition
    rw [if_pos h]
  · unfold moveMoonToPhase
    rw [if_pos h]

/-- Witness for C5 at a concrete uncalibrated state. -/
theorem uncalibrated_guard_witness :
    stZero.isCalibrated = false ∧
    (updateMoonPosition envW stZero 0 = (false, stZero, []) ∧
     moveMoonToPhase envW stZero 0 = (false, stZero, [])) :=
  ⟨rfl, uncalibrated_guard envW stZero 0 0 rfl⟩

/-- C7: for all currentSteps and targetSteps in [0, 2048), the forward-only
movement delta (2048 + targetSteps - currentSteps) mod 2048 computed by
updateMoonPosition and moveMoonToPhase lies in [0, 2048): never negative,
so no reverse motor command is ever issued. -/
theorem forwardDelta_range (c t : ℤ) (h0 : 0 ≤ c) (h1 : c < MOON_STEPS_PER_REV)
    (h2 : 0 ≤ t) (h3 : t < MOON_STEPS_PER_REV) :
    0 ≤ forwardDelta c t ∧ forwardDelta c t < MOON_STEPS_PER_REV :=
  forwardDelta_mem c t h0 h1 h2 h3

/-- Witness for C7 at currentSteps = 0, targetSteps = 5. -/
theorem forwardDelta_range_witness :
    ((0:ℤ) ≤ 0 ∧ (0:ℤ) < MOON_STEPS_PER_REV ∧ (0:ℤ) ≤ 5 ∧ (5:ℤ) < MOON_STEPS_PER_REV) ∧
    (0 ≤ forwardDelta 0 5 ∧ forwardDelta 0 5 < MOON_STEPS_PER_REV) :=
  ⟨⟨by decide, by decide, by decide, by decide⟩,
   forwardDelta_range 0 5 (by decide) (by decide) (by decide) (by decide)⟩

/-- C8: checkAndIncrementMoonCycle leaves the state unchanged and returns
false when the new moon has not been reached (in particular for every epoch
e with e < nextNewMoonEpoch), and returns true exactly when a Meeus
resynchronization occurs, in which case nextNewMoonEpoch is recomputed via
the ephemeris oracle and lastMeeusSync is set to e. -/
theorem checkAndIncrementMoonCycle_eq (env : MoonEnv) (st : MoonPhaseData) (e : ℕ) :
    checkAndIncrementMoonCycle env st e =
      if st.meeusInitialized = true ∧ st.nextNewMoonEpoch ≤ e then
        (true, { st with nextNewMoonEpoch := env.meeus e, lastMeeusSync := e })
      else (false, st) := by
  unfold checkAndIncrementMoonCycle
  cases hm : st.meeusInitialized with
  | false => simp [hm]
  | true =>
      by_cases he : st.nextNewMoonEpoch ≤ e <;> simp [hm, he]

/-- C10: moveMoonToPhase with any phase argument at or above 8 returns false,
issues no motor movement, and leaves every field of the state unchanged,
whether or not the subsystem is calibrated. -/
theorem moveMoonToPhase_invalid_phase (env : MoonEnv) (st : MoonPhaseData)
    (p : ℕ) (h : MOON_PHASES_COUNT ≤ p) :
    moveMoonToPhase env st p = (false, st, []) := by
  unfold moveMoonToPhase
  by_cases hc : st.isCalibrated = false
  · rw [if_pos hc]
  · rw [if_neg hc, if_pos h]

/-- Witness for C10 at phase 8 on a calibrated state. -/
theorem moveMoonToPhase_invalid_phase_witness :
    MOON_PHASES_COUNT ≤ 8 ∧
    moveMoonToPhase envW { stZero with isCalibrated := true } 8 =
      (false, { stZero with isCalibrated := true }, []) :=
  ⟨by decide, moveMoonToPhase_invalid_phase envW { stZero with isCalibrated := true } 8 (by decide)⟩

-- ==========================================
-- Wrap-loop lemmas and C2
-- ==========================================

lemma wrapNeg_nonneg (x : ℚ) : 0 ≤ wrapNeg x := by
  induction x using wrapNeg.induct with
  | case1 x h ih => rw [wrapNeg, if_pos h]; exact ih
  | case2 x h => rw [wrapNeg, if_neg h]; exact not_lt.mp h

lemma wrapNeg_lt : ∀ x : ℚ, x < MOON_LUNAR_CYCLE_DAYS →
    wrapNeg x < MOON_LUNAR_CYCLE_DAYS := by
  intro x
  induction x using wrapNeg.induct with
  | case1 x h ih =>
      intro _
      rw [wrapNeg, if_pos h]
      exact ih (by linarith [cycle_pos])
  | case2 x h =>
      intro hx
      rw [wrapNeg, if_neg h]
      exact hx

lemma wrapNeg_shift (x : ℚ) : ∃ n : ℤ, wrapNeg x = x + n * MOON_LUNAR_CYCLE_DAYS := by
  induction x using wrapNeg.induct with
  | case1 x h ih =>
      obtain ⟨n, hn⟩ := ih
      exact ⟨n + 1, by rw [wrapNeg, if_pos h, hn]; push_cast; ring⟩
  | case2 x h => exact ⟨0, by rw [wrapNeg, if_neg h]; push_cast; ring⟩

lemma wrapGe_lt (x : ℚ) : wrapGe x < MOON_LUNAR_CYCLE_DAYS := by
  induction x using wrapGe.induct with
  | case1 x h ih => rw [wrapGe, if_pos h]; exact ih
  | case2 x h => rw [wrapGe, if_neg h]; exact not_le.mp h

lemma wrapGe_nonneg : ∀ x : ℚ, 0 ≤ x → 0 ≤ wrapGe x := by
  intro x
  induction x using wrapGe.induct with
  | case1 x h ih =>
      intro _
      rw [wrapGe, if_pos h]
      exact ih (by linarith [cycle_pos])
  | case2 x h =>
      intro hx
      rw [wrapGe, if_neg h]
      exact hx

lemma wrapGe_shift (x : ℚ) : ∃ n : ℤ, wrapGe x = x + n * MOON_LUNAR_CYCLE_DAYS := by
  induction x using wrapGe.induct with
  | case1 x h ih =>
      obtain ⟨n, hn⟩ := ih
      exact ⟨n - 1, by rw [wrapGe, if_pos h, hn]; push_cast; ring⟩
  | case2 x h => exact ⟨0, by rw [wrapGe, if_neg h]; push_cast; ring⟩

lemma modCycle_unique (x y : ℚ) (n : ℤ)
    (hy : y = x + n * MOON_LUNAR_CYCLE_DAYS)
    (h0 : 0 ≤ y) (h1 : y < MOON_LUNAR_CYCLE_DAYS) : modCycle x = y := by
  have hc := cycle_pos
  have hx : x / MOON_LUNAR_CYCLE_DAYS = y / MOON_LUNAR_CYCLE_DAYS - n := by
    have hxy : x = y - n * MOON_LUNAR_CYCLE_DAYS := by linarith
    rw [hxy]
    field_simp
    ring
  have hy0 : ⌊y / MOON_LUNAR_CYCLE_DAYS⌋ = 0 := by
    rw [Int.floor_eq_zero_iff]
    constructor
    · exact div_nonneg h0 hc.le
    · exact (div_lt_one hc).mpr h1
  have hfl : ⌊x / MOON_LUNAR_CYCLE_DAYS⌋ = -n := by
    rw [hx, Int.floor_sub_int, hy0]
    ring
  unfold modCycle
  rw [hfl, hy]
  push_cast
  ring

lemma lunarAge_mem (st : MoonPhaseData) (e : ℕ) :
    0 ≤ calculateLunarAge st e ∧ calculateLunarAge st e < MOON_LUNAR_CYCLE_DAYS := by
  unfold calculateLunarAge
  by_cases h : st.meeusInitialized = false
  · rw [if_pos h]
    exact ⟨le_refl 0, cycle_pos⟩
  · rw [if_neg h]
    exact ⟨wrapGe_nonneg _ (wrapNeg_nonneg _), wrapGe_lt _⟩

/-- C2: with the Meeus reference initialized, calculateLunarAge equals
29.53058867 minus (nextNewMoonEpoch - e)/86400 (the difference computed with
the firmware's 32-bit signed semantics), wrapped into the half-open interval
[0, 29.53058867); in particular the result always lies in that interval. -/
theorem calculateLunarAge_wrap (st : MoonPhaseData) (e : ℕ)
    (h : st.meeusInitialized = true) :
    calculateLunarAge st e =
      modCycle (MOON_LUNAR_CYCLE_DAYS - ((sub32s st.nextNewMoonEpoch e : ℤ) : ℚ) / 86400) ∧
    0 ≤ calculateLunarAge st e ∧
    calculateLunarAge st e < MOON_LUNAR_CYCLE_DAYS := by
  obtain ⟨h0, h1⟩ := lunarAge_mem st e
  refine ⟨?_, h0, h1⟩
  have hne : ¬ st.meeusInitialized = false := by rw [h]; simp
  have hdef : calculateLunarAge st e =
      wrapGe (wrapNeg (MOON_LUNAR_CYCLE_DAYS -
        ((sub32s st.nextNewMoonEpoch e : ℤ) : ℚ) / 86400)) := by
    unfold calculateLunarAge
    rw [if_neg hne]
  obtain ⟨n1, e1⟩ := wrapNeg_shift (MOON_LUNAR_CYCLE_DAYS -
    ((sub32s st.nextNewMoonEpoch e : ℤ) : ℚ) / 86400)
  obtain ⟨n2, e2⟩ := wrapGe_shift (wrapNeg (MOON_LUNAR_CYCLE_DAYS -
    ((sub32s st.nextNewMoonEpoch e : ℤ) : ℚ) / 86400))
  have hshift : calculateLunarAge st e =
      (MOON_LUNAR_CYCLE_DAYS - ((sub32s st.nextNewMoonEpoch e : ℤ) : ℚ) / 86400) +
        (n1 + n2) * MOON_LUNAR_CYCLE_DAYS := by
    rw [hdef, e2, e1]
    push_cast
    ring
  exact (modCycle_unique _ _ (n1 + n2) (by rw [hshift]; push_cast; ring) h0 h1).symm

/-- Witness for C2 at a concrete initialized state (next new moon 10 days away). -/
theorem calculateLunarAge_wrap_witness :
    (stMeeus 864000).meeusInitialized = true ∧
    (calculateLunarAge (stMeeus 864000) 0 =
        modCycle (MOON_LUNAR_CYCLE_DAYS -
          ((sub32s (stMeeus 864000).nextNewMoonEpoch 0 : ℤ) : ℚ) / 86400) ∧
     0 ≤ calculateLunarAge (stMeeus 864000) 0 ∧
     calculateLunarAge (stMeeus 864000) 0 < MOON_LUNAR_CYCLE_DAYS) :=
  ⟨rfl, calculateLunarAge_wrap (stMeeus 864000) 0 rfl⟩

-- ==========================================
-- Phase bucketing (C3)
-- ==========================================

lemma floor_mid (a : ℚ) (k : ℤ)
    (hlow : (2 * (k:ℚ) - 1) * (MOON_LUNAR_CYCLE_DAYS / 16) ≤ a)
    (hhigh : a < (2 * (k:ℚ) + 1) * (MOON_LUNAR_CYCLE_DAYS / 16)) :
    ⌊a / MOON_LUNAR_CYCLE_DAYS * 8 + 1 / 2⌋ = k := by
  rw [Int.floor_eq_iff]
  simp only [MOON_LUNAR_CYCLE_DAYS] at hlow hhigh ⊢
  push_cast
  constructor <;> linarith

lemma calculateMoonPhase_eq_specBucket (st : MoonPhaseData) (e : ℕ) :
    calculateMoonPhase st e = specBucket (calculateLunarAge st e) := by
  simp only [calculateMoonPhase, specBucket]
  set a := calculateLunarAge st e with ha
  have hc : (0:ℚ) < MOON_LUNAR_CYCLE_DAYS := cycle_pos
  have h1516 : (15:ℚ) * MOON_LUNAR_CYCLE_DAYS / 16
      = 15 * (MOON_LUNAR_CYCLE_DAYS / 16) := by ring
  rw [h1516]
  by_cases h1 : a < MOON_LUNAR_CYCLE_DAYS / 16
  · rw [if_pos h1, if_neg (show ¬ 15 * (MOON_LUNAR_CYCLE_DAYS / 16) ≤ a by linarith)]
    have hf : ⌊a / MOON_LUNAR_CYCLE_DAYS * 8 + 1 / 2⌋ < 1 := by
      rw [Int.floor_lt]
      push_cast
      simp only [MOON_LUNAR_CYCLE_DAYS] at h1 ⊢
      linarith
    omega
  · rw [if_neg h1]
    by_cases h2 : a < 3 * (MOON_LUNAR_CYCLE_DAYS / 16)
    · rw [if_pos h2, if_neg (show ¬ 15 * (MOON_LUNAR_CYCLE_DAYS / 16) ≤ a by linarith)]
      rw [floor_mid a 1 (by push_cast; linarith) (by push_cast; linarith)]
      rfl
    · rw [if_neg h2]
      by_cases h3 : a < 5 * (MOON_LUNAR_CYCLE_DAYS / 16)
      · rw [if_pos h3, if_neg (show ¬ 15 * (MOON_LUNAR_CYCLE_DAYS / 16) ≤ a by linarith)]
        rw [floor_mid a 2 (by push_cast; linarith) (by push_cast; linarith)]
        rfl
      · rw [if_neg h3]
        by_cases h4 : a < 7 * (MOON_LUNAR_CYCLE_DAYS / 16)
        · rw [if_pos h4, if_neg (show ¬ 15 * (MOON_LUNAR_CYCLE_DAYS / 16) ≤ a by linarith)]
          rw [floor_mid a 3 (by push_cast; linarith) (by push_cast; linarith)]
          rfl
        · rw [if_neg h4]
          by_cases h5 : a < 9 * (MOON_LUNAR_CYCLE_DAYS / 16)
          · rw [if_pos h5, if_neg (show ¬ 15 * (MOON_LUNAR_CYCLE_DAYS / 16) ≤ a by linarith)]
            rw [floor_mid a 4 (by push_cast; linarith) (by push_cast; linarith)]
            rfl
          · rw [if_neg h5]
            by_cases h6 : a < 11 * (MOON_LUNAR_CYCLE_DAYS / 16)
            · rw [if_pos h6, if_neg (show ¬ 15 * (MOON_LUNAR_CYCLE_DAYS / 16) ≤ a by linarith)]
              rw [floor_mid a 5 (by push_cast; linarith) (by push_cast; linarith)]
              rfl
            · rw [if_neg h6]
              by_cases h7 : a < 13 * (MOON_LUNAR_CYCLE_DAYS / 16)
              · rw [if_pos h7, if_neg (show ¬ 15 * (MOON_LUNAR_CYCLE_DAYS / 16) ≤ a by linarith)]
                rw [floor_mid a 6 (by push_cast; linarith) (by push_cast; linarith)]
                rfl
              · rw [if_neg h7]
                by_cases h8 : a < 15 * (MOON_LUNAR_CYCLE_DAYS / 16)
                · rw [if_pos h8, if_neg (show ¬ 15 * (MOON_LUNAR_CYCLE_DAYS / 16) ≤ a by linarith)]
                  rw [floor_mid a 7 (by push_cast; linarith) (by push_cast; linarith)]
                  rfl
                · rw [if_neg h8, if_pos (show 15 * (MOON_LUNAR_CYCLE_DAYS / 16) ≤ a by linarith)]

lemma sub32s_small (a : ℕ) (h : a < 2 ^ 31) : sub32s a 0 = (a : ℤ) := by
  unfold sub32s toSigned32 u32
  have h1 : (a + (2 ^ 32 - 0 % 2 ^ 32)) % 2 ^ 32 = a := by omega
  rw [h1, if_pos h]

lemma age_eval (n : ℕ) (hn : n < 2 ^ 31) :
    calculateLunarAge (stMeeus n) 0 =
      wrapGe (wrapNeg (MOON_LUNAR_CYCLE_DAYS - (n : ℚ) / 86400)) := by
  have hinit : (stMeeus n).meeusInitialized = true := rfl
  have hproj : (stMeeus n).nextNewMoonEpoch = n := rfl
  simp only [calculateLunarAge, hinit, hproj, sub32s_small n hn]
  norm_num

lemma age_lit_full : calculateLunarAge (stMeeus 1276000) 0 = 39857589409 / 2700000000 := by
  rw [age_eval 1276000 (by norm_num)]
  rw [wrapNeg, if_neg (by norm_num [MOON_LUNAR_CYCLE_DAYS])]
  rw [wrapGe, if_neg (by norm_num [MOON_LUNAR_CYCLE_DAYS])]
  norm_num [MOON_LUNAR_CYCLE_DAYS]

lemma age_lit_new : calculateLunarAge (stMeeus 2551400) 0 = 1339409 / 2700000000 := by
  rw [age_eval 2551400 (by norm_num)]
  rw [wrapNeg, if_neg (by norm_num [MOON_LUNAR_CYCLE_DAYS])]
  rw [wrapGe, if_neg (by norm_num [MOON_LUNAR_CYCLE_DAYS])]
  norm_num [MOON_LUNAR_CYCLE_DAYS]

lemma age_lit_wrap : calculateLunarAge (stMeeus 2551500) 0 = 1476496367 / 50000000 := by
  rw [age_eval 2551500 (by norm_num)]
  rw [wrapNeg, if_pos (by norm_num [MOON_LUNAR_CYCLE_DAYS])]
  rw [wrapNeg, if_neg (by norm_num [MOON_LUNAR_CYCLE_DAYS])]
  rw [wrapGe, if_neg (by norm_num [MOON_LUNAR_CYCLE_DAYS])]
  norm_num [MOON_LUNAR_CYCLE_DAYS]

lemma phase_eval_full : calculateMoonPhase (stMeeus 1276000) 0 = 4 := by
  unfold calculateMoonPhase
  rw [age_lit_full]
  norm_num [MOON_LUNAR_CYCLE_DAYS]

lemma phase_eval_new : calculateMoonPhase (stMeeus 2551400) 0 = 0 := by
  unfold calculateMoonPhase
  rw [age_lit_new]
  norm_num [MOON_LUNAR_CYCLE_DAYS]

lemma phase_eval_wrap : calculateMoonPhase (stMeeus 2551500) 0 = 0 := by
  unfold calculateMoonPhase
  rw [age_lit_wrap]
  norm_num [MOON_LUNAR_CYCLE_DAYS]

/-- C3: calculateMoonPhase buckets the lunar age by thresholds at
1,3,5,7,9,11,13,15 sixteenths of the cycle length (specBucket states this as
rounding 8*age/cycle to the nearest phase, with ages at or beyond the 15/16
threshold wrapping to 0); in particular it returns 4 (Full Moon) at a lunar
age of about 14.76 days, and 0 (New Moon) when the age is near 0 or just
under the cycle length. -/
theorem calculateMoonPhase_bucket :
    (∀ (st : MoonPhaseData) (e : ℕ),
        calculateMoonPhase st e = specBucket (calculateLunarAge st e)) ∧
    calculateMoonPhase (stMeeus 1276000) 0 = 4 ∧
    calculateMoonPhase (stMeeus 2551400) 0 = 0 ∧
    calculateMoonPhase (stMeeus 2551500) 0 = 0 :=
  ⟨calculateMoonPhase_eq_specBucket, phase_eval_full, phase_eval_new, phase_eval_wrap⟩

-- ==========================================
-- Calibration lemmas and C4
-- ==========================================

lemma calibrateMoonHome_state_eq (env : MoonEnv) (st : MoonPhaseData) :
    (calibrateMoonHome env st).2.1 =
      (if MOON_MIN_PEAK_VALUE ≤ scanPeakValue env then
        { st with currentSteps := 0, isCalibrated := true, lastCalib := env.millisNow / 1000 }
      else st) := by
  simp only [calibrateMoonHome, scanPeakValue]
  by_cases hp : (scanPair env).1 < MOON_MIN_PEAK_VALUE
  · rw [if_pos hp, if_neg (not_le.mpr hp)]
  · rw [if_neg hp, if_pos (not_lt.mp hp)]

lemma calibrateMoonHome_success_iff (env : MoonEnv) (st : MoonPhaseData) :
    ((calibrateMoonHome env st).1.success = true ↔
      MOON_MIN_PEAK_VALUE ≤ scanPeakValue env) := by
  simp only [calibrateMoonHome, scanPeakValue]
  by_cases hp : (scanPair env).1 < MOON_MIN_PEAK_VALUE
  · rw [if_pos hp]
    simp [not_le.mpr hp]
  · rw [if_neg hp]
    have hge := not_lt.mp hp
    by_cases hd : |env.finalRead - (scanPair env).1| < 50 <;> simp [hd, hge]

/-- C4: calibrateMoonHome reports success exactly when the scan's peak
brightness is at least MOON_MIN_PEAK_VALUE (300); when the peak is below 300
it returns early leaving every field of the state (including a
previously-true isCalibrated) unchanged, and when the peak is at least 300 it
reports success regardless of how much the final-position reading differs
from the peak. -/
theorem calibrateMoonHome_spec (env : MoonEnv) (st : MoonPhaseData) :
    ((calibrateMoonHome env st).1.success = true ↔
      MOON_MIN_PEAK_VALUE ≤ scanPeakValue env) ∧
    (calibrateMoonHome env st).2.1 =
      (if MOON_MIN_PEAK_VALUE ≤ scanPeakValue env then
        { st with currentSteps := 0, isCalibrated := true, lastCalib := env.millisNow / 1000 }
      else st) :=
  ⟨calibrateMoonHome_success_iff env st, calibrateMoonHome_state_eq env st⟩

-- ==========================================
-- currentSteps invariant lemmas and C6
-- ==========================================

lemma checkAndIncrement_currentSteps (env : MoonEnv) (st : MoonPhaseData) (e : ℕ) :
    ((checkAndIncrementMoonCycle env st e).2).currentSteps = st.currentSteps := by
  unfold checkAndIncrementMoonCycle
  split_ifs <;> rfl

lemma checkAndRecalibrate_currentSteps (env : MoonEnv) (st : MoonPhaseData) (e : ℕ) :
    (checkAndRecalibrate env st e).2.1.currentSteps = 0 ∨
    (checkAndRecalibrate env st e).2.1.currentSteps = st.currentSteps := by
  simp only [checkAndRecalibrate]
  split_ifs with h1 h2 h3
  · right; rfl
  · left
    have hsucc := (calibrateMoonHome_success_iff env st).mp h3
    simp [calibrateMoonHome_state_eq env st, hsucc]
  · right
    have hfail : ¬ MOON_MIN_PEAK_VALUE ≤ scanPeakValue env :=
      fun hge => h3 ((calibrateMoonHome_success_iff env st).mpr hge)
    simp [calibrateMoonHome_state_eq env st, hfail]
  · right; rfl

lemma checkAndRecalibrate_inv (env : MoonEnv) (st : MoonPhaseData) (e : ℕ)
    (h0 : 0 ≤ st.currentSteps) (h1 : st.currentSteps < MOON_STEPS_PER_REV) :
    0 ≤ (checkAndRecalibrate env st e).2.1.currentSteps ∧
    (checkAndRecalibrate env st e).2.1.currentSteps < MOON_STEPS_PER_REV := by
  rcases checkAndRecalibrate_currentSteps env st e with h | h <;> rw [h]
  · exact ⟨le_refl 0, by norm_num [MOON_STEPS_PER_REV]⟩
  · exact ⟨h0, h1⟩

lemma calibrateMoonHome_inv (env : MoonEnv) (st : MoonPhaseData)
    (h0 : 0 ≤ st.currentSteps) (h1 : st.currentSteps < MOON_STEPS_PER_REV) :
    0 ≤ (calibrateMoonHome env st).2.1.currentSteps ∧
    (calibrateMoonHome env st).2.1.currentSteps < MOON_STEPS_PER_REV := by
  rw [calibrateMoonHome_state_eq env st]
  split_ifs
  · exact ⟨le_refl 0, by norm_num [MOON_STEPS_PER_REV]⟩
  · exact ⟨h0, h1⟩

lemma moveMoonToPhase_inv (env : MoonEnv) (st : MoonPhaseData) (p : ℕ)
    (h0 : 0 ≤ st.currentSteps) (h1 : st.currentSteps < MOON_STEPS_PER_REV) :
    0 ≤ (moveMoonToPhase env st p).2.1.currentSteps ∧
    (moveMoonToPhase env st p).2.1.currentSteps < MOON_STEPS_PER_REV := by
  unfold moveMoonToPhase
  split_ifs with hc hp
  · exact ⟨h0, h1⟩
  · exact ⟨h0, h1⟩
  · simpa using phaseToSteps_mem (not_le.mp hp)

lemma updateMoonPosition_inv (env : MoonEnv) (st : MoonPhaseData) (e : ℕ)
    (h0 : 0 ≤ st.currentSteps) (h1 : st.currentSteps < MOON_STEPS_PER_REV) :
    0 ≤ (updateMoonPosition env st e).2.1.currentSteps ∧
    (updateMoonPosition env st e).2.1.currentSteps < MOON_STEPS_PER_REV := by
  unfold updateMoonPosition
  by_cases hcal : st.isCalibrated = false
  · rw [if_pos hcal]
    exact ⟨h0, h1⟩
  · rw [if_neg hcal]
    dsimp only
    by_cases hmv : 5 < forwardDelta
        ((checkAndIncrementMoonCycle env st e).2).currentSteps
        (exactPhaseToSteps (calculateExactMoonPhase ((checkAndIncrementMoonCycle env st e).2) e))
    · rw [if_pos hmv]
      apply checkAndRecalibrate_inv
      · exact (exactPhaseToSteps_mem _).1
      · exact (exactPhaseToSteps_mem _).2
    · rw [if_neg hmv]
      apply checkAndRecalibrate_inv
      · rw [show (({ (checkAndIncrementMoonCycle env st e).2 with
            lunarAge := calculateLunarAge ((checkAndIncrementMoonCycle env st e).2) e,
            phase := calculateMoonPhase ((checkAndIncrementMoonCycle env st e).2) e,
            exactPhase := calculateExactMoonPhase ((checkAndIncrementMoonCycle env st e).2) e,
            illumination := calculateMoonIllumination env ((checkAndIncrementMoonCycle env st e).2) e } : MoonPhaseData)).currentSteps
          = st.currentSteps from checkAndIncrement_currentSteps env st e]
        exact h0
      · rw [show (({ (checkAndIncrementMoonCycle env st e).2 with
            lunarAge := calculateLunarAge ((checkAndIncrementMoonCycle env st e).2) e,
            phase := calculateMoonPhase ((checkAndIncrementMoonCycle env st e).2) e,
            exactPhase := calculateExactMoonPhase ((checkAndIncrementMoonCycle env st e).2) e,
            illumination := calculateMoonIllumination env ((checkAndIncrementMoonCycle env st e).2) e } : MoonPhaseData)).currentSteps
          = st.currentSteps from checkAndIncrement_currentSteps env st e]
        exact h1

/-- C6: starting from a currentSteps value in [0, 2048), every call to
calibrateMoonHome, updateMoonPosition, or moveMoonToPhase leaves
currentSteps in [0, 2048): never negative and never at or above
MOON_STEPS_PER_REV. -/
theorem currentSteps_invariant (env : MoonEnv) (st : MoonPhaseData) (e p : ℕ)
    (h0 : 0 ≤ st.currentSteps) (h1 : st.currentSteps < MOON_STEPS_PER_REV) :
    (0 ≤ (calibrateMoonHome env st).2.1.currentSteps ∧
     (calibrateMoonHome env st).2.1.currentSteps < MOON_STEPS_PER_REV) ∧
    (0 ≤ (updateMoonPosition env st e).2.1.currentSteps ∧
     (updateMoonPosition env st e).2.1.currentSteps < MOON_STEPS_PER_REV) ∧
    (0 ≤ (moveMoonToPhase env st p).2.1.currentSteps ∧
     (moveMoonToPhase env st p).2.1.currentSteps < MOON_STEPS_PER_REV) :=
  ⟨calibrateMoonHome_inv env st h0 h1, updateMoonPosition_inv env st e h0 h1,
   moveMoonToPhase_inv env st p h0 h1⟩

/-- Witness for C6 at the all-zero state. -/
theorem currentSteps_invariant_witness :
    ((0:ℤ) ≤ stZero.currentSteps ∧ stZero.currentSteps < MOON_STEPS_PER_REV) ∧
    ((0 ≤ (calibrateMoonHome envW stZero).2.1.currentSteps ∧
      (calibrateMoonHome envW stZero).2.1.currentSteps < MOON_STEPS_PER_REV) ∧
     (0 ≤ (updateMoonPosition envW stZero 0).2.1.currentSteps ∧
      (updateMoonPosition envW stZero 0).2.1.currentSteps < MOON_STEPS_PER_REV) ∧
     (0 ≤ (moveMoonToPhase envW stZero 0).2.1.currentSteps ∧
      (moveMoonToPhase envW stZero 0).2.1.currentSteps < MOON_STEPS_PER_REV)) :=
  ⟨⟨by decide, by decide⟩,
   currentSteps_invariant envW stZero 0 0 (by decide) (by decide)⟩

-- ==========================================
-- Date conversion lemmas and C9
-- ==========================================

lemma daysInYear_ge365 (y : ℕ) : 365 ≤ daysInYear y := by
  unfold daysInYear
  split <;> omega

lemma daysBeforeYear_base : daysBeforeYear 1970 = 0 := by
  rw [daysBeforeYear]
  simp

lemma daysBeforeYear_succ (y : ℕ) (h : 1970 ≤ y) :
    daysBeforeYear (y + 1) = daysBeforeYear y + daysInYear y := by
  rw [daysBeforeYear, if_neg (by omega)]
  simp

lemma yearLoop_spec : ∀ (year days : ℕ), 1970 ≤ year →
    1970 ≤ (yearLoop year days).1 ∧
    (yearLoop year days).2 < daysInYear (yearLoop year days).1 ∧
    daysBeforeYear (yearLoop year days).1 + (yearLoop year days).2
      = daysBeforeYear year + days := by
  intro year days
  induction year, days using yearLoop.induct with
  | case1 year days hge ih =>
      intro h
      obtain ⟨ih1, ih2, ih3⟩ := ih (by omega)
      rw [yearLoop, if_pos hge]
      refine ⟨ih1, ih2, ?_⟩
      rw [ih3, daysBeforeYear_succ year h]
      have := daysInYear_ge365 year
      omega
  | case2 year days hge =>
      intro h
      rw [yearLoop, if_neg hge]
      exact ⟨h, not_le.mp hge, rfl⟩

lemma monthLoop_spec : ∀ (L : List ℕ) (m days : ℕ), days < L.sum →
    ∃ k r, monthLoop L m days = (m + k, r) ∧ k < L.length ∧
      (L.take k).sum + r = days ∧ r < L.getD k 0 := by
  intro L
  induction L with
  | nil =>
      intro m days h
      simp at h
  | cons len rest ih =>
      intro m days h
      by_cases hle : len ≤ days
      · obtain ⟨k, r, h1, h2, h3, h4⟩ := ih (m + 1) (days - len)
          (by simp only [List.sum_cons] at h; omega)
        refine ⟨k + 1, r, ?_, ?_, ?_, ?_⟩
        · rw [monthLoop, if_pos hle, h1]
          rw [Prod.ext_iff]
          constructor
          · omega
          · rfl
        · simp only [List.length_cons]
          omega
        · simp only [List.take_succ_cons, List.sum_cons]
          omega
        · simpa using h4
      · refine ⟨0, days, ?_, ?_, ?_, ?_⟩
        · rw [monthLoop, if_neg hle]
          simp
        · simp
        · simp
        · simpa using not_le.mp hle

lemma monthLengths_length (leap : Bool) : (monthLengths leap).length = 12 := by
  cases leap <;> rfl

lemma monthLengths_sum_eq (y : ℕ) :
    (monthLengths (isLeapYear y)).sum = daysInYear y := by
  unfold daysInYear
  cases h : isLeapYear y <;> simp [monthLengths, h]

lemma monthLengths_getD_le (leap : Bool) (k : ℕ) :
    (monthLengths leap).getD k 0 ≤ 31 := by
  cases leap <;>
    (rcases k with _|_|_|_|_|_|_|_|_|_|_|_|k <;>
      simp [monthLengths, List.getD_cons_zero, List.getD_cons_succ] <;> omega)

lemma sum_take_le (L : List ℕ) {a b : ℕ} (h : a ≤ b) :
    (L.take a).sum ≤ (L.take b).sum := by
  have h1 := List.sum_take_add_sum_drop (L.take b) a
  rw [List.take_take, min_eq_left h] at h1
  omega

lemma sum_take_succ_getD (L : List ℕ) (k : ℕ) (hk : k < L.length) :
    (L.take (k + 1)).sum = (L.take k).sum + L.getD k 0 := by
  rw [List.take_succ, List.sum_append]
  congr 1
  simp [List.getD_eq_getElem?_getD, List.getElem?_eq_getElem hk]

lemma take_sum_unique (L : List ℕ) {k1 k2 r1 r2 : ℕ}
    (hk1 : k1 < L.length) (hk2 : k2 < L.length)
    (hr1 : r1 < L.getD k1 0) (hr2 : r2 < L.getD k2 0)
    (he : (L.take k1).sum + r1 = (L.take k2).sum + r2) : k1 = k2 ∧ r1 = r2 := by
  rcases Nat.lt_trichotomy k1 k2 with hlt | heq | hgt
  · exfalso
    have h1 := sum_take_succ_getD L k1 hk1
    have h2 := sum_take_le L (show k1 + 1 ≤ k2 from hlt)
    omega
  · subst heq
    omega
  · exfalso
    have h1 := sum_take_succ_getD L k2 hk2
    have h2 := sum_take_le L (show k2 + 1 ≤ k1 from hgt)
    omega

lemma daysBeforeYear_eq_zero {y : ℕ} (h : y ≤ 1970) : daysBeforeYear y = 0 := by
  rw [daysBeforeYear, if_pos h]

lemma daysBeforeYear_le_succ (y : ℕ) : daysBeforeYear y ≤ daysBeforeYear (y + 1) := by
  by_cases h : y + 1 ≤ 1970
  · rw [daysBeforeYear_eq_zero (by omega), daysBeforeYear_eq_zero h]
  · nth_rewrite 2 [daysBeforeYear]
    rw [if_neg h]
    simp only [Nat.add_sub_cancel]
    omega

lemma daysBeforeYear_mono : ∀ {y1 y2 : ℕ}, y1 ≤ y2 →
    daysBeforeYear y1 ≤ daysBeforeYear y2 := by
  intro y1 y2 h
  induction y2, h using Nat.le_induction with
  | base => exact le_refl _
  | succ y2 h ih => exact le_trans ih (daysBeforeYear_le_succ y2)

lemma year_unique {y1 y2 o1 o2 : ℕ} (h1 : 1970 ≤ y1) (h2 : 1970 ≤ y2)
    (ho1 : o1 < daysInYear y1) (ho2 : o2 < daysInYear y2)
    (he : daysBeforeYear y1 + o1 = daysBeforeYear y2 + o2) : y1 = y2 := by
  rcases Nat.lt_trichotomy y1 y2 with hlt | heq | hgt
  · exfalso
    have hs := daysBeforeYear_succ y1 h1
    have hm := daysBeforeYear_mono (show y1 + 1 ≤ y2 from hlt)
    omega
  · exact heq
  · exfalso
    have hs := daysBeforeYear_succ y2 h2
    have hm := daysBeforeYear_mono (show y2 + 1 ≤ y1 from hgt)
    omega

lemma dateTimeToEpoch_inj (y m d h mi s : ℕ) (hy : 1970 ≤ y)
    (hm1 : 1 ≤ m) (hm2 : m ≤ 12) (hd1 : 1 ≤ d)
    (hd2 : d ≤ (monthLengths (isLeapYear y)).getD (m - 1) 0)
    (hh : h < 24) (hmi : mi < 60) (hs : s < 60) :
    epochToDateTime (dateTimeToEpoch y m d h mi s) = (y, m, d, h, mi, s) := by
  set L := monthLengths (isLeapYear y) with hL
  have hlen : L.length = 12 := monthLengths_length _
  have hsum : L.sum = daysInYear y := monthLengths_sum_eq y
  have hmk : m - 1 < L.length := by omega
  have htakesucc := sum_take_succ_getD L (m - 1) hmk
  have htakele : (L.take (m - 1 + 1)).sum ≤ (L.take L.length).sum :=
    sum_take_le L (by omega)
  rw [List.take_length] at htakele
  have hoff_lt : (L.take (m - 1)).sum + (d - 1) < daysInYear y := by omega
  have hEexp : dateTimeToEpoch y m d h mi s =
      s + 60 * (mi + 60 * (h + 24 * (daysBeforeYear y
        + (L.take (m - 1)).sum + (d - 1)))) := rfl
  set E := dateTimeToEpoch y m d h mi s with hE
  have hsE : E % 60 = s := by omega
  have hmiE : E / 60 % 60 = mi := by omega
  have hhE : E / 3600 % 24 = h := by omega
  have hdE : E / 86400 = daysBeforeYear y + (L.take (m - 1)).sum + (d - 1) := by omega
  obtain ⟨hy1', hy2', hy3'⟩ := yearLoop_spec 1970 (E / 86400) (le_refl 1970)
  rw [daysBeforeYear_base] at hy3'
  have hyy : (yearLoop 1970 (E / 86400)).1 = y := by
    apply year_unique hy1' hy hy2' hoff_lt
    omega
  have hyr : (yearLoop 1970 (E / 86400)).2 = (L.take (m - 1)).sum + (d - 1) := by
    rw [hyy] at hy3'
    omega
  obtain ⟨k, r, hm1', hm2', hm3', hm4'⟩ :=
    monthLoop_spec L 1 ((yearLoop 1970 (E / 86400)).2) (by rw [hyr]; omega)
  obtain ⟨hk, hr⟩ := take_sum_unique L hm2' hmk hm4'
    (show d - 1 < L.getD (m - 1) 0 by omega) (by rw [hm3', hyr])
  simp only [epochToDateTime]
  rw [hyy, ← hL, hm1', hsE, hmiE, hhE]
  simp only [Prod.mk.injEq, true_and, and_true]
  omega

/-- C9: epochToDateTime returns the correct proleptic-Gregorian UTC
components of every Unix epoch: the components are in range (year at least
1970, month 1-12, day 1-31 and at most the length of that month under the
leap rule divisible-by-4, not by 100 unless by 400; hour 0-23, minute and
second 0-59), the reference Gregorian encoder dateTimeToEpoch maps them back
to the exact input epoch, and conversely any in-range component tuple
encoding to the epoch equals the function's output; so epochToDateTime
agrees with every correct reference Unix-epoch-to-Gregorian conversion. -/
theorem epochToDateTime_correct (epoch : ℕ) :
    (1970 ≤ (epochToDateTime epoch).1 ∧
     1 ≤ (epochToDateTime epoch).2.1 ∧ (epochToDateTime epoch).2.1 ≤ 12 ∧
     1 ≤ (epochToDateTime epoch).2.2.1 ∧
     (epochToDateTime epoch).2.2.1
       ≤ (monthLengths (isLeapYear (epochToDateTime epoch).1)).getD
           ((epochToDateTime epoch).2.1 - 1) 0 ∧
     (epochToDateTime epoch).2.2.1 ≤ 31 ∧
     (epochToDateTime epoch).2.2.2.1 < 24 ∧
     (epochToDateTime epoch).2.2.2.2.1 < 60 ∧
     (epochToDateTime epoch).2.2.2.2.2 < 60 ∧
     dateTimeToEpoch (epochToDateTime epoch).1 (epochToDateTime epoch).2.1
       (epochToDateTime epoch).2.2.1 (epochToDateTime epoch).2.2.2.1
       (epochToDateTime epoch).2.2.2.2.1 (epochToDateTime epoch).2.2.2.2.2
       = epoch) ∧
    (∀ y m d h mi s : ℕ, 1970 ≤ y → 1 ≤ m → m ≤ 12 → 1 ≤ d →
      d ≤ (monthLengths (isLeapYear y)).getD (m - 1) 0 →
      h < 24 → mi < 60 → s < 60 →
      dateTimeToEpoch y m d h mi s = epoch →
      (y, m, d, h, mi, s) = epochToDateTime epoch) := by
  constructor
  · obtain ⟨hy1, hy2, hy3⟩ := yearLoop_spec 1970 (epoch / 86400) (le_refl 1970)
    obtain ⟨k, r, hm1, hm2, hm3, hm4⟩ :=
      monthLoop_spec (monthLengths (isLeapYear (yearLoop 1970 (epoch / 86400)).1)) 1
        (yearLoop 1970 (epoch / 86400)).2
        (by rw [monthLengths_sum_eq]; exact hy2)
    have hcomp : epochToDateTime epoch =
        ((yearLoop 1970 (epoch / 86400)).1, 1 + k, r + 1,
         (epoch / 3600) % 24, (epoch / 60) % 60, epoch % 60) := by
      unfold epochToDateTime
      dsimp only
      rw [hm1]
    rw [hcomp]
    dsimp only
    have hlen := monthLengths_length (isLeapYear (yearLoop 1970 (epoch / 86400)).1)
    have hgd := monthLengths_getD_le (isLeapYear (yearLoop 1970 (epoch / 86400)).1) k
    refine ⟨hy1, by omega, by omega, by omega, ?_, by omega,
      Nat.mod_lt _ (by norm_num), Nat.mod_lt _ (by norm_num),
      Nat.mod_lt _ (by norm_num), ?_⟩
    · rw [show 1 + k - 1 = k from by omega]
      omega
    · unfold dateTimeToEpoch
      rw [show 1 + k - 1 = k from by omega, show r + 1 - 1 = r from by omega]
      have hb := daysBeforeYear_base
      have hdd1 : epoch / 60 / 60 = epoch / 3600 := by
        rw [Nat.div_div_eq_div_mul]
      have hdd2 : epoch / 3600 / 24 = epoch / 86400 := by
        rw [Nat.div_div_eq_div_mul]
      have e1 : epoch % 60 + 60 * (epoch / 60) = epoch := Nat.mod_add_div epoch 60
      have e2 : epoch / 60 % 60 + 60 * (epoch / 60 / 60) = epoch / 60 :=
        Nat.mod_add_div (epoch / 60) 60
      have e3 : epoch / 3600 % 24 + 24 * (epoch / 3600 / 24) = epoch / 3600 :=
        Nat.mod_add_div (epoch / 3600) 24
      rw [hdd1] at e2
      rw [hdd2] at e3
      omega
  · intro y m d h mi s hy hm1 hm2 hd1 hd2 hh hmi hs he
    rw [← he]
    exact (dateTimeToEpoch_inj y m d h mi s hy hm1 hm2 hd1 hd2 hh hmi hs).symm

/-- Witness for C9 at epoch 86400 (1970-01-02 00:00:00 UTC). -/
theorem epochToDateTime_correct_witness :
    ((1970:ℕ) ≤ 1970 ∧ (1:ℕ) ≤ 1 ∧ (1:ℕ) ≤ 12 ∧ (1:ℕ) ≤ 2 ∧
     (2:ℕ) ≤ (monthLengths (isLeapYear 1970)).getD (1 - 1) 0 ∧
     (0:ℕ) < 24 ∧ (0:ℕ) < 60 ∧ (0:ℕ) < 60 ∧
     dateTimeToEpoch 1970 1 2 0 0 0 = 86400) ∧
    ((1970:ℕ), (1:ℕ), (2:ℕ), (0:ℕ), (0:ℕ), (0:ℕ)) = epochToDateTime 86400 := by
  have hb : dateTimeToEpoch 1970 1 2 0 0 0 = 86400 := by
    simp [dateTimeToEpoch, daysBeforeYear_base]
  exact ⟨⟨by norm_num, by norm_num, by norm_num, by norm_num, by decide,
      by norm_num, by norm_num, by norm_num, hb⟩,
    (epochToDateTime_correct 86400).2 1970 1 2 0 0 0 (by norm_num) (by norm_num)
      (by norm_num) (by norm_num) (by decide) (by norm_num) (by norm_num)
      (by norm_num) hb⟩

-- ==========================================
-- Bounds on the Meeus correction series (for C1)
-- ==========================================

lemma sinDeg_mem (d : ℚ) : -1 ≤ sinDeg d ∧ sinDeg d ≤ 1 :=
  ⟨Real.neg_one_le_sin _, Real.sin_le_one _⟩

set_option maxHeartbeats 4000000 in
lemma corrShape (e s1 s2 s3 s4 s5 s6 s7 s8 s9 s10 s11 s12 s13 s14 s15 s16 s17 s18 s19 s20 s21 s22 s23 s24 s25 s26 s27 s28 s29 s30 s31 s32 s33 s34 s35 s36 s37 s38 s39 : ℝ) (he0 : 0 ≤ e) (he1 : e ≤ 1)
    (h1 : -1 ≤ s1 ∧ s1 ≤ 1) (h2 : -1 ≤ s2 ∧ s2 ≤ 1) (h3 : -1 ≤ s3 ∧ s3 ≤ 1) (h4 : -1 ≤ s4 ∧ s4 ≤ 1) (h5 : -1 ≤ s5 ∧ s5 ≤ 1) (h6 : -1 ≤ s6 ∧ s6 ≤ 1) (h7 : -1 ≤ s7 ∧ s7 ≤ 1) (h8 : -1 ≤ s8 ∧ s8 ≤ 1) (h9 : -1 ≤ s9 ∧ s9 ≤ 1) (h10 : -1 ≤ s10 ∧ s10 ≤ 1) (h11 : -1 ≤ s11 ∧ s11 ≤ 1) (h12 : -1 ≤ s12 ∧ s12 ≤ 1) (h13 : -1 ≤ s13 ∧ s13 ≤ 1) (h14 : -1 ≤ s14 ∧ s14 ≤ 1) (h15 : -1 ≤ s15 ∧ s15 ≤ 1) (h16 : -1 ≤ s16 ∧ s16 ≤ 1) (h17 : -1 ≤ s17 ∧ s17 ≤ 1) (h18 : -1 ≤ s18 ∧ s18 ≤ 1) (h19 : -1 ≤ s19 ∧ s19 ≤ 1) (h20 : -1 ≤ s20 ∧ s20 ≤ 1) (h21 : -1 ≤ s21 ∧ s21 ≤ 1) (h22 : -1 ≤ s22 ∧ s22 ≤ 1) (h23 : -1 ≤ s23 ∧ s23 ≤ 1) (h24 : -1 ≤ s24 ∧ s24 ≤ 1) (h25 : -1 ≤ s25 ∧ s25 ≤ 1) (h26 : -1 ≤ s26 ∧ s26 ≤ 1) (h27 : -1 ≤ s27 ∧ s27 ≤ 1) (h28 : -1 ≤ s28 ∧ s28 ≤ 1) (h29 : -1 ≤ s29 ∧ s29 ≤ 1) (h30 : -1 ≤ s30 ∧ s30 ≤ 1) (h31 : -1 ≤ s31 ∧ s31 ≤ 1) (h32 : -1 ≤ s32 ∧ s32 ≤ 1) (h33 : -1 ≤ s33 ∧ s33 ≤ 1) (h34 : -1 ≤ s34 ∧ s34 ≤ 1) (h35 : -1 ≤ s35 ∧ s35 ≤ 1) (h36 : -1 ≤ s36 ∧ s36 ≤ 1) (h37 : -1 ≤ s37 ∧ s37 ≤ 1) (h38 : -1 ≤ s38 ∧ s38 ≤ 1) (h39 : -1 ≤ s39 ∧ s39 ≤ 1) :
    -0.40720 * s1
    + 0.17241 * e * s2
    + 0.01608 * s3
    + 0.01039 * s4
    + 0.00739 * e * s5
    - 0.00514 * e * s6
    + 0.00208 * e * e * s7
    - 0.00111 * s8
    - 0.00057 * s9
    + 0.00056 * e * s10
    - 0.00042 * s11
    + 0.00042 * e * s12
    + 0.00038 * e * s13
    - 0.00024 * e * s14
    - 0.00017 * s15
    - 0.00007 * s16
    + 0.00004 * s17
    + 0.00004 * s18
    + 0.00003 * s19
    + 0.00003 * s20
    - 0.00003 * s21
    + 0.00003 * s22
    - 0.00002 * s23
    - 0.00002 * s24
    + 0.00002 * s25
    + 0.000325 * s26
    + 0.000165 * s27
    + 0.000164 * s28
    + 0.000126 * s29
    + 0.000110 * s30
    + 0.000062 * s31
    + 0.000060 * s32
    + 0.000056 * s33
    + 0.000047 * s34
    + 0.000042 * s35
    + 0.000040 * s36
    + 0.000037 * s37
    + 0.000035 * s38
    + 0.000023 * s39
    ≤ -0.40720 * s1 + 0.218982 := by
  have hee : e * e ≤ 1 := by nlinarith only [he0, he1]
  have tb2 : 0.17241 * e * s2 ≤ 0.17241 := by
    nlinarith only [h2.1, h2.2, he0, he1]
  have tb3 : 0.01608 * s3 ≤ 0.01608 := by
    nlinarith only [h3.1, h3.2]
  have tb4 : 0.01039 * s4 ≤ 0.01039 := by
    nlinarith only [h4.1, h4.2]
  have tb5 : 0.00739 * e * s5 ≤ 0.00739 := by
    nlinarith only [h5.1, h5.2, he0, he1]
  have tb6 : -(0.00514) ≤ 0.00514 * e * s6 := by
    nlinarith only [h6.1, h6.2, he0, he1]
  have tb7 : 0.00208 * e * e * s7 ≤ 0.00208 := by
    nlinarith only [h7.1, h7.2, he0, he1, hee]
  have tb8 : -(0.00111) ≤ 0.00111 * s8 := by
    nlinarith only [h8.1, h8.2]
  have tb9 : -(0.00057) ≤ 0.00057 * s9 := by
    nlinarith only [h9.1, h9.2]
  have tb10 : 0.00056 * e * s10 ≤ 0.00056 := by
    nlinarith only [h10.1, h10.2, he0, he1]
  have tb11 : -(0.00042) ≤ 0.00042 * s11 := by
    nlinarith only [h11.1, h11.2]
  have tb12 : 0.00042 * e * s12 ≤ 0.00042 := by
    nlinarith only [h12.1, h12.2, he0, he1]
  have tb13 : 0.00038 * e * s13 ≤ 0.00038 := by
    nlinarith only [h13.1, h13.2, he0, he1]
  have tb14 : -(0.00024) ≤ 0.00024 * e * s14 := by
    nlinarith only [h14.1, h14.2, he0, he1]
  have tb15 : -(0.00017) ≤ 0.00017 * s15 := by
    nlinarith only [h15.1, h15.2]
  have tb16 : -(0.00007) ≤ 0.00007 * s16 := by
    nlinarith only [h16.1, h16.2]
  have tb17 : 0.00004 * s17 ≤ 0.00004 := by
    nlinarith only [h17.1, h17.2]
  have tb18 : 0.00004 * s18 ≤ 0.00004 := by
    nlinarith only [h18.1, h18.2]
  have tb19 : 0.00003 * s19 ≤ 0.00003 := by
    nlinarith only [h19.1, h19.2]
  have tb20 : 0.00003 * s20 ≤ 0.00003 := by
    nlinarith only [h20.1, h20.2]
  have tb21 : -(0.00003) ≤ 0.00003 * s21 := by
    nlinarith only [h21.1, h21.2]
  have tb22 : 0.00003 * s22 ≤ 0.00003 := by
    nlinarith only [h22.1, h22.2]
  have tb23 : -(0.00002) ≤ 0.00002 * s23 := by
    nlinarith only [h23.1, h23.2]
  have tb24 : -(0.00002) ≤ 0.00002 * s24 := by
    nlinarith only [h24.1, h24.2]
  have tb25 : 0.00002 * s25 ≤ 0.00002 := by
    nlinarith only [h25.1, h25.2]
  have tb26 : 0.000325 * s26 ≤ 0.000325 := by
    nlinarith only [h26.1, h26.2]
  have tb27 : 0.000165 * s27 ≤ 0.000165 := by
    nlinarith only [h27.1, h27.2]
  have tb28 : 0.000164 * s28 ≤ 0.000164 := by
    nlinarith only [h28.1, h28.2]
  have tb29 : 0.000126 * s29 ≤ 0.000126 := by
    nlinarith only [h29.1, h29.2]
  have tb30 : 0.000110 * s30 ≤ 0.000110 := by
    nlinarith only [h30.1, h30.2]
  have tb31 : 0.000062 * s31 ≤ 0.000062 := by
    nlinarith only [h31.1, h31.2]
  have tb32 : 0.000060 * s32 ≤ 0.000060 := by
    nlinarith only [h32.1, h32.2]
  have tb33 : 0.000056 * s33 ≤ 0.000056 := by
    nlinarith only [h33.1, h33.2]
  have tb34 : 0.000047 * s34 ≤ 0.000047 := by
    nlinarith only [h34.1, h34.2]
  have tb35 : 0.000042 * s35 ≤ 0.000042 := by
    nlinarith only [h35.1, h35.2]
  have tb36 : 0.000040 * s36 ≤ 0.000040 := by
    nlinarith only [h36.1, h36.2]
  have tb37 : 0.000037 * s37 ≤ 0.000037 := by
    nlinarith only [h37.1, h37.2]
  have tb38 : 0.000035 * s38 ≤ 0.000035 := by
    nlinarith only [h38.1, h38.2]
  have tb39 : 0.000023 * s39 ≤ 0.000023 := by
    nlinarith only [h39.1, h39.2]
  linarith only [tb2, tb3, tb4, tb5, tb6, tb7, tb8, tb9, tb10, tb11, tb12, tb13, tb14, tb15, tb16, tb17, tb18, tb19, tb20, tb21, tb22, tb23, tb24, tb25, tb26, tb27, tb28, tb29, tb30, tb31, tb32, tb33, tb34, tb35, tb36, tb37, tb38, tb39]

set_option maxHeartbeats 4000000 in
lemma meeusCorrection_upper (k : ℤ) (hE0 : (0:ℚ) ≤ meeusE k) (hE1 : meeusE k ≤ 1) :
    meeusCorrection k ≤ -0.40720 * sinDeg (meeusMprime k) + 0.218982 := by
  have hE0R : (0:ℝ) ≤ ((meeusE k : ℚ) : ℝ) := by
    rw [show ((0:ℝ) = ((0:ℚ):ℝ)) from by norm_num]
    exact Rat.cast_le.mpr hE0
  have hE1R : ((meeusE k : ℚ) : ℝ) ≤ 1 := by
    rw [show ((1:ℝ) = ((1:ℚ):ℝ)) from by norm_num]
    exact Rat.cast_le.mpr hE1
  simp only [meeusCorrection]
  exact corrShape ((meeusE k : ℚ) : ℝ) (sinDeg (meeusMprime k)) (sinDeg (meeusM k)) (sinDeg (2 * meeusMprime k)) (sinDeg (2 * meeusF k)) (sinDeg (meeusMprime k - meeusM k)) (sinDeg (meeusMprime k + meeusM k)) (sinDeg (2 * meeusM k)) (sinDeg (meeusMprime k - 2 * meeusF k)) (sinDeg (meeusMprime k + 2 * meeusF k)) (sinDeg (2 * meeusMprime k + meeusM k)) (sinDeg (3 * meeusMprime k)) (sinDeg (meeusM k + 2 * meeusF k)) (sinDeg (meeusM k - 2 * meeusF k)) (sinDeg (2 * meeusMprime k - meeusM k)) (sinDeg (meeusOmega k)) (sinDeg (meeusMprime k + 2 * meeusM k)) (sinDeg (2 * meeusMprime k - 2 * meeusF k)) (sinDeg (3 * meeusM k)) (sinDeg (meeusMprime k + meeusM k - 2 * meeusF k)) (sinDeg (2 * meeusMprime k + 2 * meeusF k)) (sinDeg (meeusMprime k + meeusM k + 2 * meeusF k)) (sinDeg (meeusMprime k - meeusM k + 2 * meeusF k)) (sinDeg (meeusMprime k - meeusM k - 2 * meeusF k)) (sinDeg (3 * meeusMprime k + meeusM k)) (sinDeg (4 * meeusMprime k)) (sinDeg (qfmod (299.77 + 0.107408 * (k : ℚ) - 0.009173 * (meeusT k) ^ 2) 360)) (sinDeg (qfmod (251.88 + 0.016321 * (k : ℚ)) 360)) (sinDeg (qfmod (251.83 + 26.651886 * (k : ℚ)) 360)) (sinDeg (qfmod (349.42 + 36.412478 * (k : ℚ)) 360)) (sinDeg (qfmod (84.66 + 18.206239 * (k : ℚ)) 360)) (sinDeg (qfmod (141.74 + 53.303771 * (k : ℚ)) 360)) (sinDeg (qfmod (207.14 + 2.453732 * (k : ℚ)) 360)) (sinDeg (qfmod (154.84 + 7.306860 * (k : ℚ)) 360)) (sinDeg (qfmod (34.52 + 27.261239 * (k : ℚ)) 360)) (sinDeg (qfmod (207.19 + 0.121824 * (k : ℚ)) 360)) (sinDeg (qfmod (291.34 + 1.844379 * (k : ℚ)) 360)) (sinDeg (qfmod (161.72 + 24.198154 * (k : ℚ)) 360)) (sinDeg (qfmod (239.56 + 25.513099 * (k : ℚ)) 360)) (sinDeg (qfmod (331.55 + 3.592518 * (k : ℚ)) 360))
    hE0R hE1R (sinDeg_mem _) (sinDeg_mem _) (sinDeg_mem _) (sinDeg_mem _) (sinDeg_mem _) (sinDeg_mem _) (sinDeg_mem _) (sinDeg_mem _) (sinDeg_mem _) (sinDeg_mem _) (sinDeg_mem _) (sinDeg_mem _) (sinDeg_mem _) (sinDeg_mem _) (sinDeg_mem _) (sinDeg_mem _) (sinDeg_mem _) (sinDeg_mem _) (sinDeg_mem _) (sinDeg_mem _) (sinDeg_mem _) (sinDeg_mem _) (sinDeg_mem _) (sinDeg_mem _) (sinDeg_mem _) (sinDeg_mem _) (sinDeg_mem _) (sinDeg_mem _) (sinDeg_mem _) (sinDeg_mem _) (sinDeg_mem _) (sinDeg_mem _) (sinDeg_mem _) (sinDeg_mem _) (sinDeg_mem _) (sinDeg_mem _) (sinDeg_mem _) (sinDeg_mem _) (sinDeg_mem _)

-- ==========================================
-- Concrete Meeus evaluations for the C1 failing input
-- ==========================================

lemma yearLoop_step (y d : ℕ) (h : daysInYear y ≤ d) :
    yearLoop y d = yearLoop (y + 1) (d - daysInYear y) := by
  rw [yearLoop, if_pos h]

lemma yearLoop_done (y d : ℕ) (h : d < daysInYear y) :
    yearLoop y d = (y, d) := by
  rw [yearLoop, if_neg (not_le.mpr h)]

lemma yearLoop_eval : yearLoop 1970 19112 = (2022, 119) := by
  rw [show yearLoop 1970 19112 = yearLoop 1971 18747 from by rw [yearLoop_step _ _ (by norm_num [daysInYear, isLeapYear])]; norm_num [daysInYear, isLeapYear]]
  rw [show yearLoop 1971 18747 = yearLoop 1972 18382 from by rw [yearLoop_step _ _ (by norm_num [daysInYear, isLeapYear])]; norm_num [daysInYear, isLeapYear]]
  rw [show yearLoop 1972 18382 = yearLoop 1973 18016 from by rw [yearLoop_step _ _ (by norm_num [daysInYear, isLeapYear])]; norm_num [daysInYear, isLeapYear]]
  rw [show yearLoop 1973 18016 = yearLoop 1974 17651 from by rw [yearLoop_step _ _ (by norm_num [daysInYear, isLeapYear])]; norm_num [daysInYear, isLeapYear]]
  rw [show yearLoop 1974 17651 = yearLoop 1975 17286 from by rw [yearLoop_step _ _ (by norm_num [daysInYear, isLeapYear])]; norm_num [daysInYear, isLeapYear]]
  rw [show yearLoop 1975 17286 = yearLoop 1976 16921 from by rw [yearLoop_step _ _ (by norm_num [daysInYear, isLeapYear])]; norm_num [daysInYear, isLeapYear]]
  rw [show yearLoop 1976 16921 = yearLoop 1977 16555 from by rw [yearLoop_step _ _ (by norm_num [daysInYear, isLeapYear])]; norm_num [daysInYear, isLeapYear]]
  rw [show yearLoop 1977 16555 = yearLoop 1978 16190 from by rw [yearLoop_step _ _ (by norm_num [daysInYear, isLeapYear])]; norm_num [daysInYear, isLeapYear]]
  rw [show yearLoop 1978 16190 = yearLoop 1979 15825 from by rw [yearLoop_step _ _ (by norm_num [daysInYear, isLeapYear])]; norm_num [daysInYear, isLeapYear]]
  rw [show yearLoop 1979 15825 = yearLoop 1980 15460 from by rw [yearLoop_step _ _ (by norm_num [daysInYear, isLeapYear])]; norm_num [daysInYear, isLeapYear]]
  rw [show yearLoop 1980 15460 = yearLoop 1981 15094 from by rw [yearLoop_step _ _ (by norm_num [daysInYear, isLeapYear])]; norm_num [daysInYear, isLeapYear]]
  rw [show yearLoop 1981 15094 = yearLoop 1982 14729 from by rw [yearLoop_step _ _ (by norm_num [daysInYear, isLeapYear])]; norm_num [daysInYear, isLeapYear]]
  rw [show yearLoop 1982 14729 = yearLoop 1983 14364 from by rw [yearLoop_step _ _ (by norm_num [daysInYear, isLeapYear])]; norm_num [daysInYear, isLeapYear]]
  rw [show yearLoop 1983 14364 = yearLoop 1984 13999 from by rw [yearLoop_step _ _ (by norm_num [daysInYear, isLeapYear])]; norm_num [daysInYear, isLeapYear]]
  rw [show yearLoop 1984 13999 = yearLoop 1985 13633 from by rw [yearLoop_step _ _ (by norm_num [daysInYear, isLeapYear])]; norm_num [daysInYear, isLeapYear]]
  rw [show yearLoop 1985 13633 = yearLoop 1986 13268 from by rw [yearLoop_step _ _ (by norm_num [daysInYear, isLeapYear])]; norm_num [daysInYear, isLeapYear]]
  rw [show yearLoop 1986 13268 = yearLoop 1987 12903 from by rw [yearLoop_step _ _ (by norm_num [daysInYear, isLeapYear])]; norm_num [daysInYear, isLeapYear]]
  rw [show yearLoop 1987 12903 = yearLoop 1988 12538 from by rw [yearLoop_step _ _ (by norm_num [daysInYear, isLeapYear])]; norm_num [daysInYear, isLeapYear]]
  rw [show yearLoop 1988 12538 = yearLoop 1989 12172 from by rw [yearLoop_step _ _ (by norm_num [daysInYear, isLeapYear])]; norm_num [daysInYear, isLeapYear]]
  rw [show yearLoop 1989 12172 = yearLoop 1990 11807 from by rw [yearLoop_step _ _ (by norm_num [daysInYear, isLeapYear])]; norm_num [daysInYear, isLeapYear]]
  rw [show yearLoop 1990 11807 = yearLoop 1991 11442 from by rw [yearLoop_step _ _ (by norm_num [daysInYear, isLeapYear])]; norm_num [daysInYear, isLeapYear]]
  rw [show yearLoop 1991 11442 = yearLoop 1992 11077 from by rw [yearLoop_step _ _ (by norm_num [daysInYear, isLeapYear])]; norm_num [daysInYear, isLeapYear]]
  rw [show yearLoop 1992 11077 = yearLoop 1993 10711 from by rw [yearLoop_step _ _ (by norm_num [daysInYear, isLeapYear])]; norm_num [daysInYear, isLeapYear]]
  rw [show yearLoop 1993 10711 = yearLoop 1994 10346 from by rw [yearLoop_step _ _ (by norm_num [daysInYear, isLeapYear])]; norm_num [daysInYear, isLeapYear]]
  rw [show yearLoop 1994 10346 = yearLoop 1995 9981 from by rw [yearLoop_step _ _ (by norm_num [daysInYear, isLeapYear])]; norm_num [daysInYear, isLeapYear]]
  rw [show yearLoop 1995 9981 = yearLoop 1996 9616 from by rw [yearLoop_step _ _ (by norm_num [daysInYear, isLeapYear])]; norm_num [daysInYear, isLeapYear]]
  rw [show yearLoop 1996 9616 = yearLoop 1997 9250 from by rw [yearLoop_step _ _ (by norm_num [daysInYear, isLeapYear])]; norm_num [daysInYear, isLeapYear]]
  rw [show yearLoop 1997 9250 = yearLoop 1998 8885 from by rw [yearLoop_step _ _ (by norm_num [daysInYear, isLeapYear])]; norm_num [daysInYear, isLeapYear]]
  rw [show yearLoop 1998 8885 = yearLoop 1999 8520 from by rw [yearLoop_step _ _ (by norm_num [daysInYear, isLeapYear])]; norm_num [daysInYear, isLeapYear]]
  rw [show yearLoop 1999 8520 = yearLoop 2000 8155 from by rw [yearLoop_step _ _ (by norm_num [daysInYear, isLeapYear])]; norm_num [daysInYear, isLeapYear]]
  rw [show yearLoop 2000 8155 = yearLoop 2001 7789 from by rw [yearLoop_step _ _ (by norm_num [daysInYear, isLeapYear])]; norm_num [daysInYear, isLeapYear]]
  rw [show yearLoop 2001 7789 = yearLoop 2002 7424 from by rw [yearLoop_step _ _ (by norm_num [daysInYear, isLeapYear])]; norm_num [daysInYear, isLeapYear]]
  rw [show yearLoop 2002 7424 = yearLoop 2003 7059 from by rw [yearLoop_step _ _ (by norm_num [daysInYear, isLeapYear])]; norm_num [daysInYear, isLeapYear]]
  rw [show yearLoop 2003 7059 = yearLoop 2004 6694 from by rw [yearLoop_step _ _ (by norm_num [daysInYear, isLeapYear])]; norm_num [daysInYear, isLeapYear]]
  rw [show yearLoop 2004 6694 = yearLoop 2005 6328 from by rw [yearLoop_step _ _ (by norm_num [daysInYear, isLeapYear])]; norm_num [daysInYear, isLeapYear]]
  rw [show yearLoop 2005 6328 = yearLoop 2006 5963 from by rw [yearLoop_step _ _ (by norm_num [daysInYear, isLeapYear])]; norm_num [daysInYear, isLeapYear]]
  rw [show yearLoop 2006 5963 = yearLoop 2007 5598 from by rw [yearLoop_step _ _ (by norm_num [daysInYear, isLeapYear])]; norm_num [daysInYear, isLeapYear]]
  rw [show yearLoop 2007 5598 = yearLoop 2008 5233 from by rw [yearLoop_step _ _ (by norm_num [daysInYear, isLeapYear])]; norm_num [daysInYear, isLeapYear]]
  rw [show yearLoop 2008 5233 = yearLoop 2009 4867 from by rw [yearLoop_step _ _ (by norm_num [daysInYear, isLeapYear])]; norm_num [daysInYear, isLeapYear]]
  rw [show yearLoop 2009 4867 = yearLoop 2010 4502 from by rw [yearLoop_step _ _ (by norm_num [daysInYear, isLeapYear])]; norm_num [daysInYear, isLeapYear]]
  rw [show yearLoop 2010 4502 = yearLoop 2011 4137 from by rw [yearLoop_step _ _ (by norm_num [daysInYear, isLeapYear])]; norm_num [daysInYear, isLeapYear]]
  rw [show yearLoop 2011 4137 = yearLoop 2012 3772 from by rw [yearLoop_step _ _ (by norm_num [daysInYear, isLeapYear])]; norm_num [daysInYear, isLeapYear]]
  rw [show yearLoop 2012 3772 = yearLoop 2013 3406 from by rw [yearLoop_step _ _ (by norm_num [daysInYear, isLeapYear])]; norm_num [daysInYear, isLeapYear]]
  rw [show yearLoop 2013 3406 = yearLoop 2014 3041 from by rw [yearLoop_step _ _ (by norm_num [daysInYear, isLeapYear])]; norm_num [daysInYear, isLeapYear]]
  rw [show yearLoop 2014 3041 = yearLoop 2015 2676 from by rw [yearLoop_step _ _ (by norm_num [daysInYear, isLeapYear])]; norm_num [daysInYear, isLeapYear]]
  rw [show yearLoop 2015 2676 = yearLoop 2016 2311 from by rw [yearLoop_step _ _ (by norm_num [daysInYear, isLeapYear])]; norm_num [daysInYear, isLeapYear]]
  rw [show yearLoop 2016 2311 = yearLoop 2017 1945 from by rw [yearLoop_step _ _ (by norm_num [daysInYear, isLeapYear])]; norm_num [daysInYear, isLeapYear]]
  rw [show yearLoop 2017 1945 = yearLoop 2018 1580 from by rw [yearLoop_step _ _ (by norm_num [daysInYear, isLeapYear])]; norm_num [daysInYear, isLeapYear]]
  rw [show yearLoop 2018 1580 = yearLoop 2019 1215 from by rw [yearLoop_step _ _ (by norm_num [daysInYear, isLeapYear])]; norm_num [daysInYear, isLeapYear]]
  rw [show yearLoop 2019 1215 = yearLoop 2020 850 from by rw [yearLoop_step _ _ (by norm_num [daysInYear, isLeapYear])]; norm_num [daysInYear, isLeapYear]]
  rw [show yearLoop 2020 850 = yearLoop 2021 484 from by rw [yearLoop_step _ _ (by norm_num [daysInYear, isLeapYear])]; norm_num [daysInYear, isLeapYear]]
  rw [show yearLoop 2021 484 = yearLoop 2022 119 from by rw [yearLoop_step _ _ (by norm_num [daysInYear, isLeapYear])]; norm_num [daysInYear, isLeapYear]]
  rw [yearLoop_done _ _ (by norm_num [daysInYear, isLeapYear])]

lemma epochToDateTime_eval :
    epochToDateTime 1651363199 = (2022, 4, 30, 23, 59, 59) := by
  simp only [epochToDateTime]
  norm_num
  rw [yearLoop_eval]
  norm_num [isLeapYear, monthLengths, monthLoop]

lemma qfmod_eval (x y : ℚ) (n : ℤ) (hy : 0 < y) (hx : 0 ≤ x)
    (h1 : (n : ℚ) * y ≤ x) (h2 : ((n : ℚ) + 1) * y > x) :
    qfmod x y = x - y * (n : ℚ) := by
  unfold qfmod ratTrunc
  rw [if_neg (not_lt.mpr (div_nonneg hx hy.le))]
  have hfl : ⌊x / y⌋ = n := by
    rw [Int.floor_eq_iff]
    constructor
    · rw [le_div_iff₀ hy]
      linarith
    · rw [div_lt_iff₀ hy]
      push_cast
      linarith
  rw [hfl]

lemma meeusK_2022_4 : meeusK 2022 4 = 275 := by
  unfold meeusK
  rw [Int.floor_eq_iff]
  constructor <;> norm_num

lemma meeusK_2022_5 : meeusK 2022 5 = 276 := by
  unfold meeusK
  rw [Int.floor_eq_iff]
  constructor <;> norm_num

lemma meeusE275_mem : (0:ℚ) ≤ meeusE 275 ∧ meeusE 275 ≤ 1 := by
  constructor <;> norm_num [meeusE, meeusT]

lemma meeusE276_mem : (0:ℚ) ≤ meeusE 276 ∧ meeusE 276 ≤ 1 := by
  constructor <;> norm_num [meeusE, meeusT]

lemma meeusMprime276_bounds :
    (127.038:ℚ) ≤ meeusMprime 276 ∧ meeusMprime 276 ≤ 127.040 := by
  have heq := qfmod_eval
    (201.5643 + 385.81693528 * ((276:ℤ) : ℚ) + 0.0107582 * (meeusT 276) ^ 2
      + 0.00001238 * (meeusT 276) ^ 3 - 0.000000058 * (meeusT 276) ^ 4) 360 296
    (by norm_num) (by norm_num [meeusT]) (by norm_num [meeusT]) (by norm_num [meeusT])
  unfold meeusMprime
  rw [heq]
  constructor <;> norm_num [meeusT]

lemma sinDeg_Mp276_ge : (0.7:ℝ) ≤ sinDeg (meeusMprime 276) := by
  obtain ⟨h1, h2⟩ := meeusMprime276_bounds
  unfold sinDeg
  have hq1 : (127.038:ℝ) ≤ ((meeusMprime 276 : ℚ) : ℝ) := by
    rw [show (127.038:ℝ) = ((127.038:ℚ) : ℝ) from by norm_num]
    exact Rat.cast_le.mpr h1
  have hq2 : ((meeusMprime 276 : ℚ) : ℝ) ≤ 127.040 := by
    rw [show (127.040:ℝ) = ((127.040:ℚ) : ℝ) from by norm_num]
    exact Rat.cast_le.mpr h2
  set x : ℝ := ((meeusMprime 276 : ℚ) : ℝ) with hx
  have hpi1 : (3.141592:ℝ) < Real.pi := Real.pi_gt_d6
  have hpi2 : Real.pi < 3.141593 := Real.pi_lt_d6
  have hrefl : Real.sin (x * Real.pi / 180) = Real.sin ((180 - x) * Real.pi / 180) := by
    rw [show (180 - x) * Real.pi / 180 = Real.pi - x * Real.pi / 180 from by ring,
      Real.sin_pi_sub]
  rw [hrefl]
  set y : ℝ := (180 - x) * Real.pi / 180 with hy
  have hylo : (0.92432:ℝ) ≤ y := by
    rw [hy]
    nlinarith only [hq1, hq2, hpi1, hpi2]
  have hyhi : y ≤ 0.92437 := by
    rw [hy]
    nlinarith only [hq1, hq2, hpi1, hpi2]
  have hyabs : |y| ≤ 1 := by
    rw [abs_le]
    constructor <;> linarith
  have hb := (abs_le.mp (Real.sin_bound hyabs)).1
  have hy0 : (0:ℝ) ≤ y := by linarith
  rw [abs_of_nonneg hy0] at hb
  have h3 : y ^ 3 ≤ 0.92437 ^ 3 := pow_le_pow_left hy0 hyhi 3
  have h4 : y ^ 4 ≤ 0.92437 ^ 4 := pow_le_pow_left hy0 hyhi 4
  nlinarith only [hb, h3, h4, hylo]

lemma april_jd_le : calculateMeeusNewMoon 2022 4 ≤ 2459671.64 := by
  unfold calculateMeeusNewMoon
  rw [meeusK_2022_4]
  have hc := meeusCorrection_upper 275 meeusE275_mem.1 meeusE275_mem.2
  have hs := (sinDeg_mem (meeusMprime 275)).1
  have hJ : meeusJDE 275 ≤ 2459671.0097 := by norm_num [meeusJDE, meeusT]
  have hJR : ((meeusJDE 275 : ℚ) : ℝ) ≤ 2459671.0097 := by
    rw [show (2459671.0097:ℝ) = ((2459671.0097:ℚ) : ℝ) from by norm_num]
    exact Rat.cast_le.mpr hJ
  linarith only [hc, hs, hJR]

lemma may_jd_lt : calculateMeeusNewMoon 2022 5 < 2459700.5 := by
  unfold calculateMeeusNewMoon
  rw [meeusK_2022_5]
  have hc := meeusCorrection_upper 276 meeusE276_mem.1 meeusE276_mem.2
  have hs := sinDeg_Mp276_ge
  have hJ : meeusJDE 276 ≤ 2459700.5403 := by norm_num [meeusJDE, meeusT]
  have hJR : ((meeusJDE 276 : ℚ) : ℝ) ≤ 2459700.5403 := by
    rw [show (2459700.5403:ℝ) = ((2459700.5403:ℚ) : ℝ) from by norm_num]
    exact Rat.cast_le.mpr hJ
  linarith only [hc, hs, hJR]

/-- C1: the claim fails on the code.  At currentEpoch 1651363199
(2022-04-30 23:59:59 UTC, the end of a calendar month containing two new
moons), the new moon computed for April 2022 (lunation 275, around April 1)
is in the past, so the routine advances one month; but the new moon of
lunation 276 falls on 2022-04-30 20:28 UTC, still at or before currentEpoch,
and the routine returns it without rechecking.  Hence
calculateNextNewMoonMeeus does not return a timestamp strictly greater than
currentEpoch. -/
theorem calculateNextNewMoonMeeus_not_after :
    calculateNextNewMoonMeeus 1651363199 ≤ 1651363199 := by
  unfold calculateNextNewMoonMeeus
  rw [epochToDateTime_eval]
  norm_num
  have hApr : ⌊(calculateMeeusNewMoon 2022 4 - 4881175 / 2) * 86400⌋ ≤ (1651363199:ℤ) := by
    have hlt : (calculateMeeusNewMoon 2022 4 - 4881175 / 2) * 86400 < ((1651363200:ℤ) : ℝ) := by
      push_cast
      linarith only [april_jd_le]
    have := Int.floor_lt.mpr hlt
    omega
  rw [if_pos hApr]
  have hlt : (calculateMeeusNewMoon 2022 5 - 4881175 / 2) * 86400 < ((1651363200:ℤ) : ℝ) := by
    push_cast
    linarith only [may_jd_lt]
  have := Int.floor_lt.mpr hlt
  omega
